import Mathlib

/-!
Verification of the workflow run-lifecycle manager
(`src/phi/workflow/workflow.py` of the phidata repository).

The Python source is shallowly embedded: the `Workflow` pydantic model
becomes a Lean structure, Python dicts become association lists over a
`Val` value type, the storage backend becomes an explicit `Store` state
threaded through each operation, and the streaming generator of
`Workflow.run_workflow` becomes a step function `genStep` on a generator
state, driven by the consumer via `pullN`.

Collaborator classes that the repository imports but whose source is not
part of the analysed tree (`merge_dictionaries`, `WorkflowMemory`,
`WorkflowRun`, `RunResponse`, `WorkflowSession`) are modelled from the
specification; each such definition carries a doc comment saying so.
-/

/-- A Python value as far as the workflow core inspects it: strings,
numbers, and nested dicts.  Dicts are association lists with string keys
(Python dict keys are unique; insertion order is the list order). -/
inductive Val where
  | vstr : String → Val
  | vnat : Nat → Val
  | vdict : List (String × Val) → Val
deriving Repr

/-- A Python dict as used by the workflow core. -/
abbrev Dict := List (String × Val)

/-- `d.get(k)` / `d[k]`: first binding of key `k`. -/
def lookupD (d : Dict) (k : String) : Option Val :=
  match d with
  | [] => none
  | (k', v) :: rest => if k' = k then some v else lookupD rest k

/-- `k in d`. -/
def hasKey (d : Dict) (k : String) : Bool :=
  (lookupD d k).isSome

/-- `d[k] = v`: replace the binding of `k` in place, or append it. -/
def setKey (d : Dict) (k : String) (v : Val) : Dict :=
  match d with
  | [] => [(k, v)]
  | (k', v') :: rest => if k' = k then (k, v) :: rest else (k', v') :: setKey rest k v

/-- Is the value itself a map? (`isinstance(v, dict)`). -/
def Val.isDict : Val → Bool
  | .vdict _ => true
  | _ => false

/-- Modelled from the spec: `merge_dictionaries` (phi/utils/merge_dict.py,
not in the analysed tree) "mutates `persisted` in place by inserting every
key present in `local` but absent in `persisted`, and — for keys present
in both where the value is itself a map — recursing; for keys present in
both with non-map values, the local value wins (overwrite)".

`mergeOld p l` is the updated-in-place part: the keys of `p`, in `p`'s
order, with values overwritten (or recursively merged) from `l`. -/
def mergeOld : Dict → Dict → Dict
  | [], _ => []
  | (k, pv) :: rest, l =>
    (k, match lookupD l k, pv with
        | some (Val.vdict lm), Val.vdict pm => Val.vdict (mergeOld pm lm ++ lm.filter (fun e => !(hasKey pm e.1)))
        | some lv, _ => lv
        | none, _ => pv) :: mergeOld rest l
termination_by d _ => sizeOf d
decreasing_by
  all_goals simp_wf
  all_goals omega

/-- Modelled from the spec: the keys of `local` absent from `persisted`,
appended after the updated entries (Python dict insertion order). -/
def newKeys (p l : Dict) : Dict :=
  l.filter (fun e => !(hasKey p e.1))

/-- Modelled from the spec: the full merge of a persisted dict with a
local dict — see `mergeOld`.  Returns the merged dict, which becomes the
new in-memory source of truth. -/
def mergeDicts (p l : Dict) : Dict :=
  mergeOld p l ++ newKeys p l

/-- Modelled from the spec: the arguments of one run, captured verbatim as
`run_input = {"args": args, "kwargs": kwargs}`. -/
structure RunInput where
  args : List Val
  kwargs : Dict
deriving Repr

/-- Modelled from the spec: the `RunResponse` envelope
(phi/run/response.py, not in the analysed tree) — run identity plus the
(optional, not necessarily string) content payload. -/
structure RunResponse where
  run_id : Option String := none
  session_id : Option String := none
  workflow_id : Option String := none
  content : Option Val := none
deriving Repr

/-- Modelled from the spec: a `WorkflowRun` record
(phi/memory/workflow.py, not in the analysed tree) — the captured input
and the response envelope of one run. -/
structure WorkflowRun where
  input : Option RunInput
  response : Option RunResponse
deriving Repr

/-- Modelled from the spec: one serialized entry of the persisted run
history.  Reconstructing a `WorkflowRun` from a generic mapping can fail;
an entry either decodes to a run or raises. -/
inductive MemEntry where
  | good : WorkflowRun → MemEntry
  | bad : MemEntry
deriving Repr

/-- Reconstruct a single run record from its serialized entry
(`WorkflowRun(**m)`); `none` models the constructor raising. -/
def decodeEntry : MemEntry → Option WorkflowRun
  | .good r => some r
  | .bad => none

/-- The list comprehension `[WorkflowRun(**m) for m in session.memory["runs"]]`
(src line 182) raises as soon as one entry fails to reconstruct, so the
decoded list is produced all-or-nothing. -/
def decodeRuns (es : List MemEntry) : Option (List WorkflowRun) :=
  es.mapM decodeEntry

/-- Modelled from the spec: the serialized form of `WorkflowMemory`
(`memory.to_dict()`), a mapping that may or may not contain a `"runs"`
key holding the serialized run history. -/
structure MemorySer where
  runs : Option (List MemEntry)
deriving Repr

/-- Modelled from the spec: `WorkflowMemory` (phi/memory/workflow.py, not
in the analysed tree) — the ordered, append-only run history. -/
structure WorkflowMemory where
  runs : List WorkflowRun
deriving Repr

/-- Modelled from the spec: the Run History collaborator "appends typed
run records"; ordering is append order. -/
def WorkflowMemory.add_run (m : WorkflowMemory) (r : WorkflowRun) : WorkflowMemory :=
  { runs := m.runs ++ [r] }

/-- Modelled from the spec: `memory.to_dict()` serializes the run history
under the `"runs"` key. -/
def WorkflowMemory.to_dict (m : WorkflowMemory) : MemorySer :=
  { runs := some (m.runs.map MemEntry.good) }

/-- Modelled from the spec: the persisted `WorkflowSession` record
(phi/workflow/session.py, not in the analysed tree).  Field shapes follow
the spec's SessionRecord and the None-guards the source applies to each
field in `from_workflow_session`. -/
structure WorkflowSession where
  session_id : Option String := none
  workflow_id : Option String := none
  user_id : Option String := none
  memory : Option MemorySer := none
  workflow_data : Option Dict := none
  user_data : Option Dict := none
  session_data : Option Dict := none
  session_state : Option Dict := none
deriving Repr

/-- The Session Store collaborator state: the persisted records plus an
instrumentation counter of `upsert` calls, used only to observe how many
store writes an operation performs. -/
structure Store where
  sessions : List WorkflowSession
  upsertCount : Nat
deriving Repr

/-- `storage.read(session_id)`: find the record with this session id. -/
def findSession : List WorkflowSession → String → Option WorkflowSession
  | [], _ => none
  | t :: rest, sid => if t.session_id = some sid then some t else findSession rest sid

/-- `Store.read` per the spec's collaborator interface. -/
def Store.read (st : Store) (sid : String) : Option WorkflowSession :=
  findSession st.sessions sid

/-- Replace the record with the same session id, or append the record. -/
def upsertList : List WorkflowSession → WorkflowSession → List WorkflowSession
  | [], s => [s]
  | t :: rest, s => if t.session_id = s.session_id then s :: rest else t :: upsertList rest s

/-- `Store.upsert` per the spec's collaborator interface; the store echoes
the stored record back.  The counter increments once per call. -/
def Store.upsert (st : Store) (s : WorkflowSession) : WorkflowSession × Store :=
  (s, { sessions := upsertList st.sessions s, upsertCount := st.upsertCount + 1 })

/-- The in-memory `Workflow` object (src lines 19-78): the claim-relevant
pydantic fields.  `storageConfigured` models `self.storage is not None`;
the store's contents live in the explicitly threaded `Store` state.
`workflow_session` is the private `_workflow_session` cache. -/
structure Workflow where
  name : Option Val := none
  description : String := ""
  workflow_id : Option String := none
  workflow_data : Option Dict := none
  user_id : Option String := none
  user_data : Option Dict := none
  session_id : Option String := none
  session_name : Option Val := none
  session_data : Option Dict := none
  session_state : Dict := []
  memory : WorkflowMemory := { runs := [] }
  storageConfigured : Bool := false
  workflow_session : Option WorkflowSession := none
  run_id : Option String := none
  run_input : Option RunInput := none
  run_response : RunResponse := {}
deriving Repr

/-- `Workflow.get_workflow_data` (src 101-105): the workflow metadata with
the workflow's `name` written into it when set.  (The source mutates
`self.workflow_data` in place; the model returns the updated dict.) -/
def get_workflow_data (w : Workflow) : Dict :=
  let wd := w.workflow_data.getD []
  match w.name with
  | some n => setKey wd "name" n
  | none => wd

/-- `Workflow.get_session_data` (src 107-111): the session metadata with
`session_name` written into it when set. -/
def get_session_data (w : Workflow) : Dict :=
  let sd := w.session_data.getD []
  match w.session_name with
  | some n => setKey sd "session_name" n
  | none => sd

/-- `Workflow.get_workflow_session` (src 113-125): build the persistable
session record from the current in-memory fields. -/
def get_workflow_session (w : Workflow) : WorkflowSession :=
  { session_id := w.session_id
    workflow_id := w.workflow_id
    user_id := w.user_id
    memory := some w.memory.to_dict
    workflow_data := some (get_workflow_data w)
    user_data := w.user_data
    session_data := some (get_session_data w)
    session_state := some w.session_state }

/-- `Workflow.from_workflow_session`, src 131-136: adopt the persisted
`session_id`, `workflow_id` and `user_id` for any of them not yet set. -/
def fws_ids (w : Workflow) (s : WorkflowSession) : Workflow :=
  let w1 := if w.session_id.isNone && s.session_id.isSome then { w with session_id := s.session_id } else w
  let w2 := if w1.workflow_id.isNone && s.workflow_id.isSome then { w1 with workflow_id := s.workflow_id } else w1
  if w2.user_id.isNone && s.user_id.isSome then { w2 with user_id := s.user_id } else w2

/-- `Workflow.from_workflow_session`, src 139-148: adopt the persisted
name if unset, merge the persisted `workflow_data` with the local one in
place, and adopt the merged dict.  Returns both the updated workflow and
the updated (aliased) session record. -/
def fws_workflow_data (w : Workflow) (s : WorkflowSession) : Workflow × WorkflowSession :=
  match s.workflow_data with
  | none => (w, s)
  | some wd =>
    let w1 := if w.name.isNone && hasKey wd "name" then { w with name := lookupD wd "name" } else w
    -- the name adoption above does not touch `workflow_data`, so the merge
    -- reads the workflow's `workflow_data` directly
    let wd' := match w.workflow_data with
      | some localD => mergeDicts wd localD
      | none => wd
    ({ w1 with workflow_data := some wd' }, { s with workflow_data := some wd' })

/-- `Workflow.from_workflow_session`, src 151-156: merge the persisted
`user_data` with the local one and adopt it. -/
def fws_user_data (w : Workflow) (s : WorkflowSession) : Workflow × WorkflowSession :=
  match s.user_data with
  | none => (w, s)
  | some ud =>
    let ud' := match w.user_data with
      | some localD => mergeDicts ud localD
      | none => ud
    ({ w with user_data := some ud' }, { s with user_data := some ud' })

/-- `Workflow.from_workflow_session`, src 159-168: adopt the persisted
`session_name` if unset, merge `session_data`, and adopt the merged dict. -/
def fws_session_data (w : Workflow) (s : WorkflowSession) : Workflow × WorkflowSession :=
  match s.session_data with
  | none => (w, s)
  | some sd =>
    let w1 := if w.session_name.isNone && hasKey sd "session_name" then { w with session_name := lookupD sd "session_name" } else w
    -- the session_name adoption above does not touch `session_data`, so the
    -- merge reads the workflow's `session_data` directly
    let sd' := match w.session_data with
      | some localD => mergeDicts sd localD
      | none => sd
    ({ w1 with session_data := some sd' }, { s with session_data := some sd' })

/-- `Workflow.from_workflow_session`, src 171-176: merge `session_state`.
The workflow's `session_state` is a non-optional dict in the source, so
the `if self.session_state is not None` guard always holds. -/
def fws_session_state (w : Workflow) (s : WorkflowSession) : Workflow × WorkflowSession :=
  match s.session_state with
  | none => (w, s)
  | some ss =>
    let ss' := mergeDicts ss w.session_state
    ({ w with session_state := ss' }, { s with session_state := some ss' })

/-- `Workflow.from_workflow_session`, src 179-184: replace the in-memory
run history with the decoded persisted one.  The whole decode sits inside
one `try`, so any failing entry leaves the history as previously set. -/
def fws_memory (w : Workflow) (s : WorkflowSession) : Workflow :=
  match s.memory with
  | none => w
  | some mem =>
    match mem.runs with
    | none => w
    | some entries =>
      match decodeRuns entries with
      | some rs => { w with memory := { runs := rs } }
      | none => w

/-- `Workflow.from_workflow_session` (src 127-185): load the existing
workflow from a persisted session record.  The source mutates the session
record's dicts in place while merging, so the (updated) record is
returned alongside the workflow. -/
def from_workflow_session (w : Workflow) (s : WorkflowSession) : Workflow × WorkflowSession :=
  let w1 := fws_ids w s
  let p2 := fws_workflow_data w1 s
  let p3 := fws_user_data p2.1 p2.2
  let p4 := fws_session_data p3.1 p3.2
  let p5 := fws_session_state p4.1 p4.2
  (fws_memory p5.1 p5.2, p5.2)

/-- `Workflow.read_from_storage` (src 187-197): read the session record
for the current session id and, when found, load it via
`from_workflow_session`; the cache `_workflow_session` receives whatever
the read returned (the merged record, by aliasing, when found). -/
def read_from_storage (w : Workflow) (st : Store) : Workflow × Store :=
  match w.session_id with
  | some sid =>
    if w.storageConfigured then
      match st.read sid with
      | some s =>
        let p := from_workflow_session w s
        ({ p.1 with workflow_session := some p.2 }, st)
      | none => ({ w with workflow_session := none }, st)
    else (w, st)
  | none => (w, st)

/-- `Workflow.write_to_storage` (src 199-207): upsert the current
in-memory snapshot and cache the record the store echoes back. -/
def write_to_storage (w : Workflow) (st : Store) : Workflow × Store :=
  if w.storageConfigured then
    let p := st.upsert (get_workflow_session w)
    ({ w with workflow_session := some p.1 }, p.2)
  else (w, st)

/-- The failure of `Workflow.load_session` (src 235): the store produced
no record when creating a new session. -/
inductive LoadErr where
  | createFailed
deriving Repr

/-- `Workflow.load_session`, src 222-238: the read-or-create body. -/
def load_session_body (w : Workflow) (st : Store) : Except LoadErr (Option String × Workflow × Store) :=
  if w.storageConfigured then
    let p1 := read_from_storage w st
    if p1.1.workflow_session.isSome then
      .ok (p1.1.session_id, p1.1, p1.2)
    else
      let p2 := write_to_storage p1.1 p1.2
      match p2.1.workflow_session with
      | none => .error .createFailed
      | some _ => .ok (p2.1.session_id, p2.1, p2.2)
  else .ok (w.session_id, w, st)

/-- `Workflow.load_session` (src 209-238): return the cached session's id
when it matches, otherwise read an existing session or create one. -/
def load_session (w : Workflow) (st : Store) (force : Bool) : Except LoadErr (Option String × Workflow × Store) :=
  match w.workflow_session, force with
  | some ws, false =>
    if w.session_id.isSome && ws.session_id == w.session_id then
      .ok (ws.session_id, w, st)
    else load_session_body w st
  | _, _ => load_session_body w st

/-- `Workflow.__init__`, src 305: `self.name = self.name or
self.__class__.__name__` — the workflow name always ends up set (a falsy
name is replaced by the class name). -/
def workflow_init_name (w : Workflow) (className : String) : Workflow :=
  { w with name := match w.name with
      | some (Val.vstr s) => if s.isEmpty then some (Val.vstr className) else some (Val.vstr s)
      | some v => some v
      | none => some (Val.vstr className) }

/-- One item yielded by the user function's iterator: either a
`RunResponse` envelope or some other object (forwarded with a warning). -/
inductive Fragment where
  | resp : RunResponse → Fragment
  | nonResp : Fragment
deriving Repr

/-- The shape of the user function's result, as `run_workflow` classifies
it (src 256, 283, 299): an iterator of fragments, a single
`RunResponse`, or neither. -/
inductive RunResult where
  | iter : List Fragment → RunResult
  | single : RunResponse → RunResult
  | other : RunResult

/-- Stamp an envelope with the current run identity (src 264-266 and
285-287): `item.run_id = self.run_id` etc., overwriting whatever the
user function had set. -/
def stampResponse (w : Workflow) (r : RunResponse) : RunResponse :=
  { r with run_id := w.run_id, session_id := w.session_id, workflow_id := w.workflow_id }

/-- Stamping lifted to fragments: non-`RunResponse` items are forwarded
unchanged (src 271-273). -/
def stampFrag (w : Workflow) : Fragment → Fragment
  | .resp r => .resp (stampResponse w r)
  | .nonResp => .nonResp

/-- `self.run_response.content += item.content` (src 270).  The outer
content is a string accumulator (initialized to `""` at src 258); on a
non-string accumulator Python would raise, which is unreachable here, so
the model leaves it unchanged. -/
def appendStr (c : Option Val) (s : String) : Option Val :=
  match c with
  | some (Val.vstr acc) => some (Val.vstr (acc ++ s))
  | c' => c'

/-- The accumulator effect of yielding one fragment (src 268-270): when
the fragment is an envelope whose content is a string, append it to the
outer envelope's content; otherwise leave the workflow unchanged. -/
def stepContent (w : Workflow) (f : Fragment) : Workflow :=
  match f with
  | .resp r =>
    match (stampResponse w r).content with
    | some (Val.vstr s) =>
      { w with run_response := { w.run_response with content := appendStr w.run_response.content s } }
    | _ => w
  | .nonResp => w

/-- The accumulator effect of a whole fragment sequence, in emission
order. -/
def accumulate (w : Workflow) : List Fragment → Workflow
  | [] => w
  | f :: rest => accumulate (stepContent w f) rest

/-- The string a fragment contributes to the outer accumulator: its
content when it is an envelope with string content, nothing otherwise. -/
def fragmentText : Fragment → String
  | .resp r =>
    match r.content with
    | some (Val.vstr s) => s
    | _ => ""
  | .nonResp => ""

/-- The concatenation, in emission order, of the string-valued content of
the fragments. -/
def concatContents : List Fragment → String
  | [] => ""
  | f :: rest => fragmentText f ++ concatContents rest

/-- The shared finalization of a run (src 276-278 and 293-296): append a
`WorkflowRun {run_input, run_response}` to the memory, then write the
session to storage. -/
def finalize_run (w : Workflow) (st : Store) : Workflow × Store :=
  let w1 := { w with memory := w.memory.add_run ⟨w.run_input, some w.run_response⟩ }
  write_to_storage w1 st

/-- The state of the generator returned by the streaming branch of
`run_workflow` (src 260-279): the workflow and store it closes over, the
fragments not yet pulled, and whether finalization has run. -/
structure GenState where
  w : Workflow
  st : Store
  pending : List Fragment
  finished : Bool

/-- One consumer pull on the generator (src 261-279).  With fragments
pending: stamp (if an envelope), accumulate string content, and yield the
item.  When the producer is exhausted: run the finalization once and end
the iteration (`none`); once finished, further pulls yield nothing. -/
def genStep (g : GenState) : Option Fragment × GenState :=
  match g.pending with
  | f :: rest =>
    (some (stampFrag g.w f), { g with w := stepContent g.w f, pending := rest })
  | [] =>
    if g.finished then (none, g)
    else
      let p := finalize_run g.w g.st
      (none, { w := p.1, st := p.2, pending := [], finished := true })

/-- Pull at most `n` items from the generator, collecting the yielded
fragments; stop at the end of the iteration. -/
def pullN : Nat → GenState → List Fragment × GenState
  | 0, g => ([], g)
  | n + 1, g =>
    match genStep g with
    | (none, g') => ([], g')
    | (some f, g') =>
      let p := pullN n g'
      (f :: p.1, p.2)

/-- The outcome of `run_workflow`: a streaming generator, a single
stamped envelope (with the post-run workflow and store), or `None` for a
malformed result. -/
inductive RunOutcome where
  | stream : GenState → RunOutcome
  | response : RunResponse → Workflow → Store → RunOutcome
  | noResult : Workflow → Store → RunOutcome

/-- `Workflow.run_workflow`, src 245-248: allocate the run id, capture
the input, initialize the outer envelope stamped with the run identity,
and read the session from storage.  `newRunId` is the freshly drawn
uuid. -/
def run_workflow_pre (w : Workflow) (newRunId : String) (inp : RunInput) (st : Store) : Workflow × Store :=
  let w1 := { w with
    run_id := some newRunId
    run_input := some inp
    run_response := { run_id := some newRunId, session_id := w.session_id,
                      workflow_id := w.workflow_id, content := none } }
  read_from_storage w1 st

/-- `Workflow.run_workflow` (src 244-301).  The user function is passed
as `subclassRun`, observing the workflow and store state at invocation
time; its result is classified as an iterator (src 256-281), a single
`RunResponse` (src 283-298), or neither (src 299-301). -/
def run_workflow (w : Workflow) (newRunId : String) (inp : RunInput) (st : Store)
    (subclassRun : Workflow → Store → RunResult) : RunOutcome :=
  let p := run_workflow_pre w newRunId inp st
  let w1 := p.1
  let st1 := p.2
  match subclassRun w1 st1 with
  | .iter frags =>
    -- src 258: self.run_response.content = ""
    let w2 := { w1 with run_response := { w1.run_response with content := some (Val.vstr "") } }
    .stream { w := w2, st := st1, pending := frags, finished := false }
  | .single r =>
    let r' := stampResponse w1 r
    -- src 290-291: copy string content into the outer envelope
    let w2 := match r'.content with
      | some (Val.vstr s) =>
        { w1 with run_response := { w1.run_response with content := some (Val.vstr s) } }
      | _ => w1
    let p2 := finalize_run w2 st1
    .response r' p2.1 p2.2
  | .other => .noResult w1 st1

/-- How `Workflow.rename_session` (src 353-358) can fail:
`storageNotConfigured` models the `AttributeError` of calling `.read` on
`self.storage = None`; `notFound` is the raised "WorkflowSession not
found"; `sessionDataNone` models the `TypeError` of subscripting a `None`
`session_data`. -/
inductive RenameErr where
  | storageNotConfigured
  | notFound : String → RenameErr
  | sessionDataNone
deriving Repr, DecidableEq

/-- `Workflow.rename_session` (src 353-358): read the record, raise if
absent, set `session_data["session_name"]` and upsert.  The store state
is returned unchanged on every failure. -/
def rename_session (w : Workflow) (st : Store) (sid newName : String) : Except RenameErr Unit × Store :=
  if w.storageConfigured then
    match st.read sid with
    | none => (.error (.notFound sid), st)
    | some ws =>
      match ws.session_data with
      | none => (.error .sessionDataNone, st)
      | some sd =>
        let ws' := { ws with session_data := some (setKey sd "session_name" (Val.vstr newName)) }
        (.ok (), (st.upsert ws').2)
  else (.error .storageNotConfigured, st)

/-! Concrete fixtures used to evaluate the theorems on closed inputs. -/

/-- An empty store. -/
def emptyStore : Store := { sessions := [], upsertCount := 0 }

/-- A run input with no arguments. -/
def sampleInput : RunInput := { args := [], kwargs := [] }

/-- A workflow with identity set and a storage backend configured. -/
def wfBase : Workflow :=
  { description := "d", workflow_id := some "wf-1", session_id := some "sess-1",
    storageConfigured := true }

/-- A fresh workflow with no storage backend and empty history. -/
def wfFresh : Workflow := { description := "d" }

/-- The spec's streaming example: three envelopes with contents
`"Hello"`, `" "`, `"World"`. -/
def helloFrags : List Fragment :=
  [ .resp { content := some (Val.vstr "Hello") },
    .resp { content := some (Val.vstr " ") },
    .resp { content := some (Val.vstr "World") } ]

/-- Innermost level of the persisted merge example. -/
def mergeP2 : Dict := [("deep", Val.vstr "pdeep"), ("pkeep", Val.vnat 3)]

/-- Middle level of the persisted merge example. -/
def mergeP1 : Dict := [("nest2", Val.vdict mergeP2)]

/-- Persisted dict for the merge example: a shared scalar key, a key of
its own, and a three-level nested dict. -/
def mergeP : Dict :=
  [ ("shared", Val.vstr "persisted"),
    ("ponly", Val.vnat 1),
    ("nest", Val.vdict mergeP1) ]

/-- Innermost level of the local merge example. -/
def mergeL2 : Dict := [("deep", Val.vstr "ldeep"), ("ladd", Val.vnat 4)]

/-- Middle level of the local merge example. -/
def mergeL1 : Dict := [("nest2", Val.vdict mergeL2)]

/-- Local dict for the merge example. -/
def mergeL : Dict :=
  [ ("shared", Val.vstr "local"),
    ("lonly", Val.vnat 2),
    ("nest", Val.vdict mergeL1) ]

/-- A well-formed persisted run record. -/
def runA : WorkflowRun := ⟨some sampleInput, some { content := some (Val.vstr "a") }⟩

/-- Another well-formed persisted run record. -/
def runB : WorkflowRun := ⟨none, some { content := some (Val.vstr "b") }⟩

/-- A persisted session whose memory holds a non-empty, fully decodable
run history. -/
def sessWithHistory : WorkflowSession :=
  { session_id := some "sess-1",
    memory := some { runs := some [MemEntry.good runA, MemEntry.good runB] } }

/-- A persisted session whose run history has a malformed entry between
two well-formed ones. -/
def sessBadHistory : WorkflowSession :=
  { session_id := some "sess-1",
    memory := some { runs := some [MemEntry.good runA, MemEntry.bad, MemEntry.good runB] } }

/-- A stored session record with a non-null `session_data`. -/
def sessStored : WorkflowSession :=
  { session_id := some "sess-1", session_data := some [("k", Val.vnat 0)] }

/-- A store holding exactly `sessStored`. -/
def storeOne : Store := { sessions := [sessStored], upsertCount := 0 }

/-- A stored session record whose `session_data` is null. -/
def sessNoData : WorkflowSession := { session_id := some "sess-2", session_data := none }

/-- A store holding exactly `sessNoData`. -/
def storeNoData : Store := { sessions := [sessNoData], upsertCount := 0 }

/-- A persisted session carrying a name and a session name. -/
def sessNamed : WorkflowSession :=
  { workflow_data := some [("name", Val.vstr "persisted-name")],
    session_data := some [("session_name", Val.vstr "persisted-session")] }

/-- A workflow whose `name` is unset but whose local `workflow_data`
contains a conflicting `"name"` key (which wins the generic merge). -/
def wfUnnamed : Workflow :=
  { description := "d", workflow_data := some [("name", Val.vstr "local-dict-name")] }

/-- A workflow whose `name` and `session_name` are already set locally. -/
def wfNamed : Workflow :=
  { description := "d", name := some (Val.vstr "my-name"),
    session_name := some (Val.vstr "my-session") }

/-- The generator state that `run_workflow` returns for the spec's
streaming example (workflow `wfBase`, empty store, fragments
`helloFrags`). -/
def helloGen : GenState :=
  { w := { (run_workflow_pre wfBase "run-1" sampleInput emptyStore).1 with
      run_response := { (run_workflow_pre wfBase "run-1" sampleInput emptyStore).1.run_response with
        content := some (Val.vstr "") } },
    st := (run_workflow_pre wfBase "run-1" sampleInput emptyStore).2,
    pending := helloFrags, finished := false }

/-- The first fragment of the streaming example, as it reaches the
consumer: stamped with the run identity. -/
def stampedHello : RunResponse :=
  stampResponse helloGen.w { content := some (Val.vstr "Hello") }

/-! Helper lemmas about dict lookup and the merge. -/

theorem lookupD_append_some (a b : Dict) (k : String) (v : Val)
    (h : lookupD a k = some v) : lookupD (a ++ b) k = some v := by
  induction a with
  | nil => simp [lookupD] at h
  | cons e rest ih =>
    obtain ⟨k', v'⟩ := e
    by_cases hk : k' = k
    · simp [lookupD, hk] at h ⊢
      exact h
    · simp [lookupD, hk] at h ⊢
      exact ih h

theorem lookupD_append_none (a b : Dict) (k : String)
    (h : lookupD a k = none) : lookupD (a ++ b) k = lookupD b k := by
  induction a with
  | nil => simp
  | cons e rest ih =>
    obtain ⟨k', v'⟩ := e
    by_cases hk : k' = k
    · simp [lookupD, hk] at h
    · simp [lookupD, hk] at h ⊢
      exact ih h

theorem lookupD_mergeOld_pnone (p l : Dict) (k : String)
    (h : lookupD p k = none) : lookupD (mergeOld p l) k = none := by
  induction p with
  | nil => rw [mergeOld.eq_def]; simp [lookupD]
  | cons e rest ih =>
    obtain ⟨k', pv⟩ := e
    by_cases hk : k' = k
    · simp [lookupD, hk] at h
    · simp [lookupD, hk] at h
      rw [mergeOld.eq_def]
      simp [lookupD, hk]
      exact ih h

theorem lookupD_mergeOld_lnone (p l : Dict) (k : String) (pv : Val)
    (hp : lookupD p k = some pv) (hl : lookupD l k = none) :
    lookupD (mergeOld p l) k = some pv := by
  induction p with
  | nil => simp [lookupD] at hp
  | cons e rest ih =>
    obtain ⟨k', pv'⟩ := e
    by_cases hk : k' = k
    · subst hk
      simp [lookupD] at hp
      rw [mergeOld.eq_def]
      simp [lookupD, hl, hp]
    · simp [lookupD, hk] at hp
      rw [mergeOld.eq_def]
      simp [lookupD, hk]
      exact ih hp

theorem lookupD_mergeOld_both (p l : Dict) (k : String) (pv lv : Val)
    (hp : lookupD p k = some pv) (hl : lookupD l k = some lv)
    (hnd : (pv.isDict && lv.isDict) = false) :
    lookupD (mergeOld p l) k = some lv := by
  induction p with
  | nil => simp [lookupD] at hp
  | cons e rest ih =>
    obtain ⟨k', pv'⟩ := e
    by_cases hk : k' = k
    · subst hk
      simp [lookupD] at hp
      subst hp
      rw [mergeOld.eq_def]
      cases pv' <;> cases lv <;> simp_all [lookupD, Val.isDict]
    · simp [lookupD, hk] at hp
      rw [mergeOld.eq_def]
      simp [lookupD, hk]
      exact ih hp

theorem lookupD_mergeOld_dicts (p l : Dict) (k : String) (pm lm : Dict)
    (hp : lookupD p k = some (Val.vdict pm)) (hl : lookupD l k = some (Val.vdict lm)) :
    lookupD (mergeOld p l) k = some (Val.vdict (mergeDicts pm lm)) := by
  induction p with
  | nil => simp [lookupD] at hp
  | cons e rest ih =>
    obtain ⟨k', pv'⟩ := e
    by_cases hk : k' = k
    · subst hk
      simp [lookupD] at hp
      subst hp
      rw [mergeOld.eq_def]
      simp [lookupD, hl, mergeDicts, newKeys]
    · simp [lookupD, hk] at hp
      rw [mergeOld.eq_def]
      simp [lookupD, hk]
      exact ih hp

theorem lookupD_newKeys_present (p l : Dict) (k : String)
    (h : hasKey p k = true) : lookupD (newKeys p l) k = none := by
  induction l with
  | nil => simp [newKeys, lookupD]
  | cons e rest ih =>
    obtain ⟨k', v⟩ := e
    by_cases hk : k' = k
    · subst hk
      simpa [newKeys, List.filter_cons, h] using ih
    · simp only [newKeys, List.filter_cons] at ih ⊢
      cases hpk : !(hasKey p k') with
      | false => simpa [hpk] using ih
      | true => simpa [hpk, lookupD, hk] using ih

theorem lookupD_newKeys_absent (p l : Dict) (k : String)
    (h : hasKey p k = false) : lookupD (newKeys p l) k = lookupD l k := by
  induction l with
  | nil => simp [newKeys, lookupD]
  | cons e rest ih =>
    obtain ⟨k', v⟩ := e
    by_cases hk : k' = k
    · subst hk
      simp [newKeys, List.filter_cons, h, lookupD]
    · simp only [newKeys, List.filter_cons] at ih ⊢
      cases hpk : !(hasKey p k') with
      | false => simpa [hpk, lookupD, hk] using ih
      | true => simpa [hpk, lookupD, hk] using ih

theorem lookupD_mergeDicts_scalar (p l : Dict) (k : String) (pv lv : Val)
    (hp : lookupD p k = some pv) (hl : lookupD l k = some lv)
    (hnd : (pv.isDict && lv.isDict) = false) :
    lookupD (mergeDicts p l) k = some lv :=
  lookupD_append_some _ _ _ _ (lookupD_mergeOld_both p l k pv lv hp hl hnd)

theorem lookupD_mergeDicts_ponly (p l : Dict) (k : String) (pv : Val)
    (hp : lookupD p k = some pv) (hl : lookupD l k = none) :
    lookupD (mergeDicts p l) k = some pv :=
  lookupD_append_some _ _ _ _ (lookupD_mergeOld_lnone p l k pv hp hl)

theorem lookupD_mergeDicts_lonly (p l : Dict) (k : String)
    (hp : lookupD p k = none) :
    lookupD (mergeDicts p l) k = lookupD l k := by
  have h1 := lookupD_mergeOld_pnone p l k hp
  have h2 : hasKey p k = false := by simp [hasKey, hp]
  unfold mergeDicts
  rw [lookupD_append_none _ _ _ h1, lookupD_newKeys_absent p l k h2]

theorem lookupD_mergeDicts_dicts (p l : Dict) (k : String) (pm lm : Dict)
    (hp : lookupD p k = some (Val.vdict pm)) (hl : lookupD l k = some (Val.vdict lm)) :
    lookupD (mergeDicts p l) k = some (Val.vdict (mergeDicts pm lm)) :=
  lookupD_append_some _ _ _ _ (lookupD_mergeOld_dicts p l k pm lm hp hl)

/-! Frame lemmas: which fields each step of `from_workflow_session`
leaves untouched. -/

theorem fws_ids_name (w : Workflow) (s : WorkflowSession) : (fws_ids w s).name = w.name := by
  simp only [fws_ids]
  split <;> split <;> split <;> rfl

theorem fws_ids_session_name (w : Workflow) (s : WorkflowSession) :
    (fws_ids w s).session_name = w.session_name := by
  simp only [fws_ids]
  split <;> split <;> split <;> rfl

theorem fws_ids_workflow_data (w : Workflow) (s : WorkflowSession) :
    (fws_ids w s).workflow_data = w.workflow_data := by
  simp only [fws_ids]
  split <;> split <;> split <;> rfl

theorem fws_ids_user_data (w : Workflow) (s : WorkflowSession) :
    (fws_ids w s).user_data = w.user_data := by
  simp only [fws_ids]
  split <;> split <;> split <;> rfl

theorem fws_ids_session_data (w : Workflow) (s : WorkflowSession) :
    (fws_ids w s).session_data = w.session_data := by
  simp only [fws_ids]
  split <;> split <;> split <;> rfl

theorem fws_ids_session_state (w : Workflow) (s : WorkflowSession) :
    (fws_ids w s).session_state = w.session_state := by
  simp only [fws_ids]
  split <;> split <;> split <;> rfl

theorem fws_ids_memory (w : Workflow) (s : WorkflowSession) :
    (fws_ids w s).memory = w.memory := by
  simp only [fws_ids]
  split <;> split <;> split <;> rfl

theorem fws_ids_run_id (w : Workflow) (s : WorkflowSession) :
    (fws_ids w s).run_id = w.run_id := by
  simp only [fws_ids]
  split <;> split <;> split <;> rfl

theorem fws_ids_run_input (w : Workflow) (s : WorkflowSession) :
    (fws_ids w s).run_input = w.run_input := by
  simp only [fws_ids]
  split <;> split <;> split <;> rfl

theorem fws_ids_run_response (w : Workflow) (s : WorkflowSession) :
    (fws_ids w s).run_response = w.run_response := by
  simp only [fws_ids]
  split <;> split <;> split <;> rfl

theorem fws_ids_storageConfigured (w : Workflow) (s : WorkflowSession) :
    (fws_ids w s).storageConfigured = w.storageConfigured := by
  simp only [fws_ids]
  split <;> split <;> split <;> rfl

theorem fws_ids_session_id_some (w : Workflow) (s : WorkflowSession) (sid : String)
    (h : w.session_id = some sid) : (fws_ids w s).session_id = some sid := by
  simp only [fws_ids]
  split <;> split <;> split <;> simp_all

theorem fws_ids_workflow_id_some (w : Workflow) (s : WorkflowSession) (wid : String)
    (h : w.workflow_id = some wid) : (fws_ids w s).workflow_id = some wid := by
  simp only [fws_ids]
  split <;> split <;> split <;> simp_all

theorem fws_ids_shape (w : Workflow) (s : WorkflowSession) :
    ∃ a b c, fws_ids w s = { w with session_id := a, workflow_id := b, user_id := c } := by
  simp only [fws_ids]
  split <;> split <;> split <;> exact ⟨_, _, _, rfl⟩

theorem fws_workflow_data_shape (w : Workflow) (s : WorkflowSession) :
    ∃ n d e, fws_workflow_data w s
      = ({ w with name := n, workflow_data := d }, { s with workflow_data := e }) := by
  unfold fws_workflow_data
  cases s.workflow_data with
  | none => exact ⟨w.name, w.workflow_data, s.workflow_data, rfl⟩
  | some wd =>
    dsimp only
    split <;> exact ⟨_, _, _, rfl⟩

theorem fws_user_data_shape (w : Workflow) (s : WorkflowSession) :
    ∃ d e, fws_user_data w s = ({ w with user_data := d }, { s with user_data := e }) := by
  unfold fws_user_data
  cases s.user_data with
  | none => exact ⟨w.user_data, s.user_data, rfl⟩
  | some ud => exact ⟨_, _, rfl⟩

theorem fws_session_data_shape (w : Workflow) (s : WorkflowSession) :
    ∃ n d e, fws_session_data w s
      = ({ w with session_name := n, session_data := d }, { s with session_data := e }) := by
  unfold fws_session_data
  cases s.session_data with
  | none => exact ⟨w.session_name, w.session_data, s.session_data, rfl⟩
  | some sd =>
    dsimp only
    split <;> exact ⟨_, _, _, rfl⟩

theorem fws_session_state_shape (w : Workflow) (s : WorkflowSession) :
    ∃ d e, fws_session_state w s
      = ({ w with session_state := d }, { s with session_state := e }) := by
  unfold fws_session_state
  cases s.session_state with
  | none => exact ⟨w.session_state, s.session_state, rfl⟩
  | some ss => exact ⟨_, _, rfl⟩

theorem fws_memory_shape (w : Workflow) (s : WorkflowSession) :
    ∃ m, fws_memory w s = { w with memory := m } := by
  unfold fws_memory
  cases s.memory with
  | none => exact ⟨w.memory, rfl⟩
  | some mem =>
    dsimp only
    cases mem.runs with
    | none => exact ⟨w.memory, rfl⟩
    | some entries =>
      dsimp only
      cases decodeRuns entries with
      | none => exact ⟨w.memory, rfl⟩
      | some rs => exact ⟨_, rfl⟩

/-! Per-step projection lemmas derived from the shape lemmas. -/

theorem fws_workflow_data_fst_session_name (w : Workflow) (s : WorkflowSession) :
    (fws_workflow_data w s).1.session_name = w.session_name := by
  obtain ⟨n, d, e, h⟩ := fws_workflow_data_shape w s
  simp [h]

theorem fws_workflow_data_fst_memory (w : Workflow) (s : WorkflowSession) :
    (fws_workflow_data w s).1.memory = w.memory := by
  obtain ⟨n, d, e, h⟩ := fws_workflow_data_shape w s
  simp [h]

theorem fws_workflow_data_fst_session_id (w : Workflow) (s : WorkflowSession) :
    (fws_workflow_data w s).1.session_id = w.session_id := by
  obtain ⟨n, d, e, h⟩ := fws_workflow_data_shape w s
  simp [h]

theorem fws_workflow_data_fst_workflow_id (w : Workflow) (s : WorkflowSession) :
    (fws_workflow_data w s).1.workflow_id = w.workflow_id := by
  obtain ⟨n, d, e, h⟩ := fws_workflow_data_shape w s
  simp [h]

theorem fws_workflow_data_fst_run_id (w : Workflow) (s : WorkflowSession) :
    (fws_workflow_data w s).1.run_id = w.run_id := by
  obtain ⟨n, d, e, h⟩ := fws_workflow_data_shape w s
  simp [h]

theorem fws_workflow_data_fst_run_input (w : Workflow) (s : WorkflowSession) :
    (fws_workflow_data w s).1.run_input = w.run_input := by
  obtain ⟨n, d, e, h⟩ := fws_workflow_data_shape w s
  simp [h]

theorem fws_workflow_data_fst_run_response (w : Workflow) (s : WorkflowSession) :
    (fws_workflow_data w s).1.run_response = w.run_response := by
  obtain ⟨n, d, e, h⟩ := fws_workflow_data_shape w s
  simp [h]

theorem fws_workflow_data_fst_storageConfigured (w : Workflow) (s : WorkflowSession) :
    (fws_workflow_data w s).1.storageConfigured = w.storageConfigured := by
  obtain ⟨n, d, e, h⟩ := fws_workflow_data_shape w s
  simp [h]

theorem fws_workflow_data_fst_workflow_session (w : Workflow) (s : WorkflowSession) :
    (fws_workflow_data w s).1.workflow_session = w.workflow_session := by
  obtain ⟨n, d, e, h⟩ := fws_workflow_data_shape w s
  simp [h]

theorem fws_workflow_data_snd_session_data (w : Workflow) (s : WorkflowSession) :
    (fws_workflow_data w s).2.session_data = s.session_data := by
  obtain ⟨n, d, e, h⟩ := fws_workflow_data_shape w s
  simp [h]

theorem fws_workflow_data_snd_memory (w : Workflow) (s : WorkflowSession) :
    (fws_workflow_data w s).2.memory = s.memory := by
  obtain ⟨n, d, e, h⟩ := fws_workflow_data_shape w s
  simp [h]

theorem fws_workflow_data_snd_user_data (w : Workflow) (s : WorkflowSession) :
    (fws_workflow_data w s).2.user_data = s.user_data := by
  obtain ⟨n, d, e, h⟩ := fws_workflow_data_shape w s
  simp [h]

theorem fws_user_data_fst_name (w : Workflow) (s : WorkflowSession) :
    (fws_user_data w s).1.name = w.name := by
  obtain ⟨d, e, h⟩ := fws_user_data_shape w s
  simp [h]

theorem fws_user_data_fst_session_name (w : Workflow) (s : WorkflowSession) :
    (fws_user_data w s).1.session_name = w.session_name := by
  obtain ⟨d, e, h⟩ := fws_user_data_shape w s
  simp [h]

theorem fws_user_data_fst_memory (w : Workflow) (s : WorkflowSession) :
    (fws_user_data w s).1.memory = w.memory := by
  obtain ⟨d, e, h⟩ := fws_user_data_shape w s
  simp [h]

theorem fws_user_data_fst_workflow_data (w : Workflow) (s : WorkflowSession) :
    (fws_user_data w s).1.workflow_data = w.workflow_data := by
  obtain ⟨d, e, h⟩ := fws_user_data_shape w s
  simp [h]

theorem fws_user_data_fst_session_id (w : Workflow) (s : WorkflowSession) :
    (fws_user_data w s).1.session_id = w.session_id := by
  obtain ⟨d, e, h⟩ := fws_user_data_shape w s
  simp [h]

theorem fws_user_data_fst_workflow_id (w : Workflow) (s : WorkflowSession) :
    (fws_user_data w s).1.workflow_id = w.workflow_id := by
  obtain ⟨d, e, h⟩ := fws_user_data_shape w s
  simp [h]

theorem fws_user_data_fst_run_id (w : Workflow) (s : WorkflowSession) :
    (fws_user_data w s).1.run_id = w.run_id := by
  obtain ⟨d, e, h⟩ := fws_user_data_shape w s
  simp [h]

theorem fws_user_data_fst_run_input (w : Workflow) (s : WorkflowSession) :
    (fws_user_data w s).1.run_input = w.run_input := by
  obtain ⟨d, e, h⟩ := fws_user_data_shape w s
  simp [h]

theorem fws_user_data_fst_run_response (w : Workflow) (s : WorkflowSession) :
    (fws_user_data w s).1.run_response = w.run_response := by
  obtain ⟨d, e, h⟩ := fws_user_data_shape w s
  simp [h]

theorem fws_user_data_fst_storageConfigured (w : Workflow) (s : WorkflowSession) :
    (fws_user_data w s).1.storageConfigured = w.storageConfigured := by
  obtain ⟨d, e, h⟩ := fws_user_data_shape w s
  simp [h]

theorem fws_user_data_fst_workflow_session (w : Workflow) (s : WorkflowSession) :
    (fws_user_data w s).1.workflow_session = w.workflow_session := by
  obtain ⟨d, e, h⟩ := fws_user_data_shape w s
  simp [h]

theorem fws_user_data_snd_workflow_data (w : Workflow) (s : WorkflowSession) :
    (fws_user_data w s).2.workflow_data = s.workflow_data := by
  obtain ⟨d, e, h⟩ := fws_user_data_shape w s
  simp [h]

theorem fws_user_data_snd_session_data (w : Workflow) (s : WorkflowSession) :
    (fws_user_data w s).2.session_data = s.session_data := by
  obtain ⟨d, e, h⟩ := fws_user_data_shape w s
  simp [h]

theorem fws_user_data_snd_memory (w : Workflow) (s : WorkflowSession) :
    (fws_user_data w s).2.memory = s.memory := by
  obtain ⟨d, e, h⟩ := fws_user_data_shape w s
  simp [h]

theorem fws_session_data_fst_name (w : Workflow) (s : WorkflowSession) :
    (fws_session_data w s).1.name = w.name := by
  obtain ⟨n, d, e, h⟩ := fws_session_data_shape w s
  simp [h]

theorem fws_session_data_fst_memory (w : Workflow) (s : WorkflowSession) :
    (fws_session_data w s).1.memory = w.memory := by
  obtain ⟨n, d, e, h⟩ := fws_session_data_shape w s
  simp [h]

theorem fws_session_data_fst_workflow_data (w : Workflow) (s : WorkflowSession) :
    (fws_session_data w s).1.workflow_data = w.workflow_data := by
  obtain ⟨n, d, e, h⟩ := fws_session_data_shape w s
  simp [h]

theorem fws_session_data_fst_session_id (w : Workflow) (s : WorkflowSession) :
    (fws_session_data w s).1.session_id = w.session_id := by
  obtain ⟨n, d, e, h⟩ := fws_session_data_shape w s
  simp [h]

theorem fws_session_data_fst_workflow_id (w : Workflow) (s : WorkflowSession) :
    (fws_session_data w s).1.workflow_id = w.workflow_id := by
  obtain ⟨n, d, e, h⟩ := fws_session_data_shape w s
  simp [h]

theorem fws_session_data_fst_run_id (w : Workflow) (s : WorkflowSession) :
    (fws_session_data w s).1.run_id = w.run_id := by
  obtain ⟨n, d, e, h⟩ := fws_session_data_shape w s
  simp [h]

theorem fws_session_data_fst_run_input (w : Workflow) (s : WorkflowSession) :
    (fws_session_data w s).1.run_input = w.run_input := by
  obtain ⟨n, d, e, h⟩ := fws_session_data_shape w s
  simp [h]

theorem fws_session_data_fst_run_response (w : Workflow) (s : WorkflowSession) :
    (fws_session_data w s).1.run_response = w.run_response := by
  obtain ⟨n, d, e, h⟩ := fws_session_data_shape w s
  simp [h]

theorem fws_session_data_fst_storageConfigured (w : Workflow) (s : WorkflowSession) :
    (fws_session_data w s).1.storageConfigured = w.storageConfigured := by
  obtain ⟨n, d, e, h⟩ := fws_session_data_shape w s
  simp [h]

theorem fws_session_data_fst_workflow_session (w : Workflow) (s : WorkflowSession) :
    (fws_session_data w s).1.workflow_session = w.workflow_session := by
  obtain ⟨n, d, e, h⟩ := fws_session_data_shape w s
  simp [h]

theorem fws_session_data_snd_workflow_data (w : Workflow) (s : WorkflowSession) :
    (fws_session_data w s).2.workflow_data = s.workflow_data := by
  obtain ⟨n, d, e, h⟩ := fws_session_data_shape w s
  simp [h]

theorem fws_session_data_snd_memory (w : Workflow) (s : WorkflowSession) :
    (fws_session_data w s).2.memory = s.memory := by
  obtain ⟨n, d, e, h⟩ := fws_session_data_shape w s
  simp [h]

theorem fws_session_state_fst_name (w : Workflow) (s : WorkflowSession) :
    (fws_session_state w s).1.name = w.name := by
  obtain ⟨d, e, h⟩ := fws_session_state_shape w s
  simp [h]

theorem fws_session_state_fst_session_name (w : Workflow) (s : WorkflowSession) :
    (fws_session_state w s).1.session_name = w.session_name := by
  obtain ⟨d, e, h⟩ := fws_session_state_shape w s
  simp [h]

theorem fws_session_state_fst_memory (w : Workflow) (s : WorkflowSession) :
    (fws_session_state w s).1.memory = w.memory := by
  obtain ⟨d, e, h⟩ := fws_session_state_shape w s
  simp [h]

theorem fws_session_state_fst_workflow_data (w : Workflow) (s : WorkflowSession) :
    (fws_session_state w s).1.workflow_data = w.workflow_data := by
  obtain ⟨d, e, h⟩ := fws_session_state_shape w s
  simp [h]

theorem fws_session_state_fst_session_id (w : Workflow) (s : WorkflowSession) :
    (fws_session_state w s).1.session_id = w.session_id := by
  obtain ⟨d, e, h⟩ := fws_session_state_shape w s
  simp [h]

theorem fws_session_state_fst_workflow_id (w : Workflow) (s : WorkflowSession) :
    (fws_session_state w s).1.workflow_id = w.workflow_id := by
  obtain ⟨d, e, h⟩ := fws_session_state_shape w s
  simp [h]

theorem fws_session_state_fst_run_id (w : Workflow) (s : WorkflowSession) :
    (fws_session_state w s).1.run_id = w.run_id := by
  obtain ⟨d, e, h⟩ := fws_session_state_shape w s
  simp [h]

theorem fws_session_state_fst_run_input (w : Workflow) (s : WorkflowSession) :
    (fws_session_state w s).1.run_input = w.run_input := by
  obtain ⟨d, e, h⟩ := fws_session_state_shape w s
  simp [h]

theorem fws_session_state_fst_run_response (w : Workflow) (s : WorkflowSession) :
    (fws_session_state w s).1.run_response = w.run_response := by
  obtain ⟨d, e, h⟩ := fws_session_state_shape w s
  simp [h]

theorem fws_session_state_fst_storageConfigured (w : Workflow) (s : WorkflowSession) :
    (fws_session_state w s).1.storageConfigured = w.storageConfigured := by
  obtain ⟨d, e, h⟩ := fws_session_state_shape w s
  simp [h]

theorem fws_session_state_fst_workflow_session (w : Workflow) (s : WorkflowSession) :
    (fws_session_state w s).1.workflow_session = w.workflow_session := by
  obtain ⟨d, e, h⟩ := fws_session_state_shape w s
  simp [h]

theorem fws_session_state_snd_workflow_data (w : Workflow) (s : WorkflowSession) :
    (fws_session_state w s).2.workflow_data = s.workflow_data := by
  obtain ⟨d, e, h⟩ := fws_session_state_shape w s
  simp [h]

theorem fws_session_state_snd_memory (w : Workflow) (s : WorkflowSession) :
    (fws_session_state w s).2.memory = s.memory := by
  obtain ⟨d, e, h⟩ := fws_session_state_shape w s
  simp [h]

theorem fws_memory_name (w : Workflow) (s : WorkflowSession) :
    (fws_memory w s).name = w.name := by
  obtain ⟨m, h⟩ := fws_memory_shape w s
  simp [h]

theorem fws_memory_session_name (w : Workflow) (s : WorkflowSession) :
    (fws_memory w s).session_name = w.session_name := by
  obtain ⟨m, h⟩ := fws_memory_shape w s
  simp [h]

theorem fws_memory_workflow_data (w : Workflow) (s : WorkflowSession) :
    (fws_memory w s).workflow_data = w.workflow_data := by
  obtain ⟨m, h⟩ := fws_memory_shape w s
  simp [h]

theorem fws_memory_session_id (w : Workflow) (s : WorkflowSession) :
    (fws_memory w s).session_id = w.session_id := by
  obtain ⟨m, h⟩ := fws_memory_shape w s
  simp [h]

theorem fws_memory_workflow_id (w : Workflow) (s : WorkflowSession) :
    (fws_memory w s).workflow_id = w.workflow_id := by
  obtain ⟨m, h⟩ := fws_memory_shape w s
  simp [h]

theorem fws_memory_run_id (w : Workflow) (s : WorkflowSession) :
    (fws_memory w s).run_id = w.run_id := by
  obtain ⟨m, h⟩ := fws_memory_shape w s
  simp [h]

theorem fws_memory_run_input (w : Workflow) (s : WorkflowSession) :
    (fws_memory w s).run_input = w.run_input := by
  obtain ⟨m, h⟩ := fws_memory_shape w s
  simp [h]

theorem fws_memory_run_response (w : Workflow) (s : WorkflowSession) :
    (fws_memory w s).run_response = w.run_response := by
  obtain ⟨m, h⟩ := fws_memory_shape w s
  simp [h]

theorem fws_memory_storageConfigured (w : Workflow) (s : WorkflowSession) :
    (fws_memory w s).storageConfigured = w.storageConfigured := by
  obtain ⟨m, h⟩ := fws_memory_shape w s
  simp [h]

theorem fws_memory_workflow_session (w : Workflow) (s : WorkflowSession) :
    (fws_memory w s).workflow_session = w.workflow_session := by
  obtain ⟨m, h⟩ := fws_memory_shape w s
  simp [h]

/-! Conditional behavior of the individual steps. -/

theorem fws_workflow_data_fst_name_some (w : Workflow) (s : WorkflowSession) (v : Val)
    (h : w.name = some v) : (fws_workflow_data w s).1.name = some v := by
  unfold fws_workflow_data
  cases s.workflow_data with
  | none => exact h
  | some wd =>
    dsimp only
    simp [h]

theorem fws_workflow_data_fst_name_adopt (w : Workflow) (s : WorkflowSession) (wd : Dict)
    (hs : s.workflow_data = some wd) (hn : w.name = none) (hk : hasKey wd "name" = true) :
    (fws_workflow_data w s).1.name = lookupD wd "name" := by
  unfold fws_workflow_data
  rw [hs]
  dsimp only
  simp [hn, hk]

theorem fws_workflow_data_merge (w : Workflow) (s : WorkflowSession) (wd localD : Dict)
    (hs : s.workflow_data = some wd) (hw : w.workflow_data = some localD) :
    (fws_workflow_data w s).1.workflow_data = some (mergeDicts wd localD) ∧
    (fws_workflow_data w s).2.workflow_data = some (mergeDicts wd localD) := by
  unfold fws_workflow_data
  rw [hs]
  dsimp only
  rw [hw]
  dsimp only
  exact ⟨rfl, rfl⟩

theorem fws_session_data_fst_session_name_some (w : Workflow) (s : WorkflowSession) (v : Val)
    (h : w.session_name = some v) : (fws_session_data w s).1.session_name = some v := by
  unfold fws_session_data
  cases s.session_data with
  | none => exact h
  | some sd =>
    dsimp only
    simp [h]

theorem fws_session_data_fst_session_name_adopt (w : Workflow) (s : WorkflowSession) (sd : Dict)
    (hs : s.session_data = some sd) (hn : w.session_name = none)
    (hk : hasKey sd "session_name" = true) :
    (fws_session_data w s).1.session_name = lookupD sd "session_name" := by
  unfold fws_session_data
  rw [hs]
  dsimp only
  simp [hn, hk]

theorem fws_memory_runs_decoded (w : Workflow) (s : WorkflowSession) (mem : MemorySer)
    (entries : List MemEntry) (rs : List WorkflowRun)
    (hs : s.memory = some mem) (hr : mem.runs = some entries)
    (hd : decodeRuns entries = some rs) :
    (fws_memory w s).memory = { runs := rs } := by
  unfold fws_memory
  rw [hs]
  dsimp only
  rw [hr]
  dsimp only
  rw [hd]

theorem fws_memory_runs_failed (w : Workflow) (s : WorkflowSession) (mem : MemorySer)
    (entries : List MemEntry)
    (hs : s.memory = some mem) (hr : mem.runs = some entries)
    (hd : decodeRuns entries = none) :
    fws_memory w s = w := by
  unfold fws_memory
  rw [hs]
  dsimp only
  rw [hr]
  dsimp only
  rw [hd]

/-! Chain-level facts about `from_workflow_session`. -/

theorem from_ws_fst_run_id (w : Workflow) (s : WorkflowSession) :
    (from_workflow_session w s).1.run_id = w.run_id := by
  simp only [from_workflow_session]
  rw [fws_memory_run_id, fws_session_state_fst_run_id, fws_session_data_fst_run_id,
      fws_user_data_fst_run_id, fws_workflow_data_fst_run_id, fws_ids_run_id]

theorem from_ws_fst_run_input (w : Workflow) (s : WorkflowSession) :
    (from_workflow_session w s).1.run_input = w.run_input := by
  simp only [from_workflow_session]
  rw [fws_memory_run_input, fws_session_state_fst_run_input, fws_session_data_fst_run_input,
      fws_user_data_fst_run_input, fws_workflow_data_fst_run_input, fws_ids_run_input]

theorem from_ws_fst_run_response (w : Workflow) (s : WorkflowSession) :
    (from_workflow_session w s).1.run_response = w.run_response := by
  simp only [from_workflow_session]
  rw [fws_memory_run_response, fws_session_state_fst_run_response,
      fws_session_data_fst_run_response, fws_user_data_fst_run_response,
      fws_workflow_data_fst_run_response, fws_ids_run_response]

theorem from_ws_fst_storageConfigured (w : Workflow) (s : WorkflowSession) :
    (from_workflow_session w s).1.storageConfigured = w.storageConfigured := by
  simp only [from_workflow_session]
  rw [fws_memory_storageConfigured, fws_session_state_fst_storageConfigured,
      fws_session_data_fst_storageConfigured, fws_user_data_fst_storageConfigured,
      fws_workflow_data_fst_storageConfigured, fws_ids_storageConfigured]

theorem from_ws_fst_session_id_some (w : Workflow) (s : WorkflowSession) (sid : String)
    (h : w.session_id = some sid) : (from_workflow_session w s).1.session_id = some sid := by
  simp only [from_workflow_session]
  rw [fws_memory_session_id, fws_session_state_fst_session_id, fws_session_data_fst_session_id,
      fws_user_data_fst_session_id, fws_workflow_data_fst_session_id]
  exact fws_ids_session_id_some w s sid h

theorem from_ws_fst_workflow_id_some (w : Workflow) (s : WorkflowSession) (wid : String)
    (h : w.workflow_id = some wid) : (from_workflow_session w s).1.workflow_id = some wid := by
  simp only [from_workflow_session]
  rw [fws_memory_workflow_id, fws_session_state_fst_workflow_id, fws_session_data_fst_workflow_id,
      fws_user_data_fst_workflow_id, fws_workflow_data_fst_workflow_id]
  exact fws_ids_workflow_id_some w s wid h

theorem from_ws_fst_name_some (w : Workflow) (s : WorkflowSession) (v : Val)
    (h : w.name = some v) : (from_workflow_session w s).1.name = some v := by
  simp only [from_workflow_session]
  rw [fws_memory_name, fws_session_state_fst_name, fws_session_data_fst_name,
      fws_user_data_fst_name]
  refine fws_workflow_data_fst_name_some (fws_ids w s) s v ?_
  rw [fws_ids_name]
  exact h

theorem from_ws_fst_name_adopt (w : Workflow) (s : WorkflowSession) (wd : Dict)
    (hs : s.workflow_data = some wd) (hn : w.name = none) (hk : hasKey wd "name" = true) :
    (from_workflow_session w s).1.name = lookupD wd "name" := by
  simp only [from_workflow_session]
  rw [fws_memory_name, fws_session_state_fst_name, fws_session_data_fst_name,
      fws_user_data_fst_name]
  refine fws_workflow_data_fst_name_adopt (fws_ids w s) s wd hs ?_ hk
  rw [fws_ids_name]
  exact hn

theorem from_ws_fst_session_name_some (w : Workflow) (s : WorkflowSession) (v : Val)
    (h : w.session_name = some v) : (from_workflow_session w s).1.session_name = some v := by
  simp only [from_workflow_session]
  rw [fws_memory_session_name, fws_session_state_fst_session_name]
  refine fws_session_data_fst_session_name_some _ _ v ?_
  rw [fws_user_data_fst_session_name, fws_workflow_data_fst_session_name, fws_ids_session_name]
  exact h

theorem from_ws_fst_session_name_adopt (w : Workflow) (s : WorkflowSession) (sd : Dict)
    (hs : s.session_data = some sd) (hn : w.session_name = none)
    (hk : hasKey sd "session_name" = true) :
    (from_workflow_session w s).1.session_name = lookupD sd "session_name" := by
  simp only [from_workflow_session]
  rw [fws_memory_session_name, fws_session_state_fst_session_name]
  refine fws_session_data_fst_session_name_adopt _ _ sd ?_ ?_ hk
  · rw [fws_user_data_snd_session_data, fws_workflow_data_snd_session_data]
    exact hs
  · rw [fws_user_data_fst_session_name, fws_workflow_data_fst_session_name, fws_ids_session_name]
    exact hn

theorem from_ws_memory_decoded (w : Workflow) (s : WorkflowSession) (mem : MemorySer)
    (entries : List MemEntry) (rs : List WorkflowRun)
    (hs : s.memory = some mem) (hr : mem.runs = some entries)
    (hd : decodeRuns entries = some rs) :
    (from_workflow_session w s).1.memory = { runs := rs } := by
  simp only [from_workflow_session]
  refine fws_memory_runs_decoded _ _ mem entries rs ?_ hr hd
  rw [fws_session_state_snd_memory, fws_session_data_snd_memory, fws_user_data_snd_memory,
      fws_workflow_data_snd_memory]
  exact hs

theorem from_ws_memory_failed (w : Workflow) (s : WorkflowSession) (mem : MemorySer)
    (entries : List MemEntry)
    (hs : s.memory = some mem) (hr : mem.runs = some entries)
    (hd : decodeRuns entries = none) :
    (from_workflow_session w s).1.memory = w.memory := by
  simp only [from_workflow_session]
  rw [fws_memory_runs_failed _ _ mem entries ?hm hr hd]
  · rw [fws_session_state_fst_memory, fws_session_data_fst_memory, fws_user_data_fst_memory,
        fws_workflow_data_fst_memory, fws_ids_memory]
  case hm =>
    rw [fws_session_state_snd_memory, fws_session_data_snd_memory, fws_user_data_snd_memory,
        fws_workflow_data_snd_memory]
    exact hs

theorem from_ws_workflow_data_merge (w : Workflow) (s : WorkflowSession) (wd localD : Dict)
    (hs : s.workflow_data = some wd) (hw : w.workflow_data = some localD) :
    (from_workflow_session w s).1.workflow_data = some (mergeDicts wd localD) ∧
    (from_workflow_session w s).2.workflow_data = some (mergeDicts wd localD) := by
  simp only [from_workflow_session]
  have hids : (fws_ids w s).workflow_data = some localD := by
    rw [fws_ids_workflow_data]
    exact hw
  have hm := fws_workflow_data_merge (fws_ids w s) s wd localD hs hids
  constructor
  · rw [fws_memory_workflow_data, fws_session_state_fst_workflow_data,
        fws_session_data_fst_workflow_data, fws_user_data_fst_workflow_data]
    exact hm.1
  · rw [fws_session_state_snd_workflow_data, fws_session_data_snd_workflow_data,
        fws_user_data_snd_workflow_data]
    exact hm.2

/-! Facts about `read_from_storage` and the pre-invocation phase of
`run_workflow`. -/

theorem rfs_store (w : Workflow) (st : Store) : (read_from_storage w st).2 = st := by
  unfold read_from_storage
  cases w.session_id
  · rfl
  · dsimp only
    split
    · split <;> rfl
    · rfl

theorem rfs_run_id (w : Workflow) (st : Store) :
    (read_from_storage w st).1.run_id = w.run_id := by
  unfold read_from_storage
  cases hsid : w.session_id
  · rfl
  · rename_i sid
    dsimp only
    cases hc : w.storageConfigured
    · simp [hc]
    · cases hr : st.read sid
      · simp [hr, hc]
      · rename_i s
        simp [hr, hc, from_ws_fst_run_id w s]

theorem rfs_run_input (w : Workflow) (st : Store) :
    (read_from_storage w st).1.run_input = w.run_input := by
  unfold read_from_storage
  cases hsid : w.session_id
  · rfl
  · rename_i sid
    dsimp only
    cases hc : w.storageConfigured
    · simp [hc]
    · cases hr : st.read sid
      · simp [hr, hc]
      · rename_i s
        simp [hr, hc, from_ws_fst_run_input w s]

theorem rfs_run_response (w : Workflow) (st : Store) :
    (read_from_storage w st).1.run_response = w.run_response := by
  unfold read_from_storage
  cases hsid : w.session_id
  · rfl
  · rename_i sid
    dsimp only
    cases hc : w.storageConfigured
    · simp [hc]
    · cases hr : st.read sid
      · simp [hr, hc]
      · rename_i s
        simp [hr, hc, from_ws_fst_run_response w s]

theorem rfs_storageConfigured (w : Workflow) (st : Store) :
    (read_from_storage w st).1.storageConfigured = w.storageConfigured := by
  unfold read_from_storage
  cases hsid : w.session_id
  · rfl
  · rename_i sid
    dsimp only
    cases hc : w.storageConfigured
    · simp [hc]
    · cases hr : st.read sid
      · simp [hr, hc]
      · rename_i s
        simp [hr, hc, from_ws_fst_storageConfigured w s]

theorem rfs_session_id_some (w : Workflow) (st : Store) (sid : String)
    (h : w.session_id = some sid) :
    (read_from_storage w st).1.session_id = some sid := by
  unfold read_from_storage
  rw [h]
  dsimp only
  cases hc : w.storageConfigured
  · simpa using h
  · cases hr : st.read sid
    · simp [hr]
    · rename_i s
      simp [hr, from_ws_fst_session_id_some w s sid h]

theorem rfs_workflow_id_some (w : Workflow) (st : Store) (sid wid : String)
    (hs : w.session_id = some sid) (h : w.workflow_id = some wid) :
    (read_from_storage w st).1.workflow_id = some wid := by
  unfold read_from_storage
  rw [hs]
  dsimp only
  cases hc : w.storageConfigured
  · simpa using h
  · cases hr : st.read sid
    · simpa [hr] using h
    · rename_i s
      simp [hr, from_ws_fst_workflow_id_some w s wid h]

theorem rfs_not_found (w : Workflow) (st : Store) (sid : String)
    (hc : w.storageConfigured = true) (hsid : w.session_id = some sid)
    (hr : st.read sid = none) :
    (read_from_storage w st).1.workflow_session = none := by
  unfold read_from_storage
  rw [hsid]
  dsimp only
  simp [hc, hr]

theorem rfs_found (w : Workflow) (st : Store) (sid : String) (s : WorkflowSession)
    (hc : w.storageConfigured = true) (hsid : w.session_id = some sid)
    (hr : st.read sid = some s) :
    (read_from_storage w st).1.workflow_session = some ((from_workflow_session w s).2) := by
  unfold read_from_storage
  rw [hsid]
  dsimp only
  simp [hc, hr]

theorem pre_store (w : Workflow) (rid : String) (inp : RunInput) (st : Store) :
    (run_workflow_pre w rid inp st).2 = st := by
  unfold run_workflow_pre
  exact rfs_store _ st

theorem pre_run_id (w : Workflow) (rid : String) (inp : RunInput) (st : Store) :
    (run_workflow_pre w rid inp st).1.run_id = some rid := by
  unfold run_workflow_pre
  rw [rfs_run_id]

theorem pre_run_input (w : Workflow) (rid : String) (inp : RunInput) (st : Store) :
    (run_workflow_pre w rid inp st).1.run_input = some inp := by
  unfold run_workflow_pre
  rw [rfs_run_input]

theorem pre_storageConfigured (w : Workflow) (rid : String) (inp : RunInput) (st : Store) :
    (run_workflow_pre w rid inp st).1.storageConfigured = w.storageConfigured := by
  unfold run_workflow_pre
  rw [rfs_storageConfigured]

theorem pre_session_id (w : Workflow) (rid : String) (inp : RunInput) (st : Store)
    (sid : String) (h : w.session_id = some sid) :
    (run_workflow_pre w rid inp st).1.session_id = some sid := by
  unfold run_workflow_pre
  exact rfs_session_id_some _ st sid h

theorem pre_workflow_id (w : Workflow) (rid : String) (inp : RunInput) (st : Store)
    (sid wid : String) (hs : w.session_id = some sid) (h : w.workflow_id = some wid) :
    (run_workflow_pre w rid inp st).1.workflow_id = some wid := by
  unfold run_workflow_pre
  exact rfs_workflow_id_some _ st sid wid hs h

theorem pre_not_found (w : Workflow) (rid : String) (inp : RunInput) (st : Store)
    (sid : String) (hc : w.storageConfigured = true) (hsid : w.session_id = some sid)
    (hr : st.read sid = none) :
    (run_workflow_pre w rid inp st).1.workflow_session = none := by
  unfold run_workflow_pre
  exact rfs_not_found _ st sid hc hsid hr

/-! Lemmas about the streaming generator. -/

theorem stampResponse_content (w : Workflow) (r : RunResponse) :
    (stampResponse w r).content = r.content := rfl

theorem stepContent_run_id (w : Workflow) (f : Fragment) :
    (stepContent w f).run_id = w.run_id := by
  cases f with
  | nonResp => rfl
  | resp r =>
    unfold stepContent
    dsimp only
    split <;> rfl

theorem stepContent_session_id (w : Workflow) (f : Fragment) :
    (stepContent w f).session_id = w.session_id := by
  cases f with
  | nonResp => rfl
  | resp r =>
    unfold stepContent
    dsimp only
    split <;> rfl

theorem stepContent_workflow_id (w : Workflow) (f : Fragment) :
    (stepContent w f).workflow_id = w.workflow_id := by
  cases f with
  | nonResp => rfl
  | resp r =>
    unfold stepContent
    dsimp only
    split <;> rfl

theorem stepContent_memory (w : Workflow) (f : Fragment) :
    (stepContent w f).memory = w.memory := by
  cases f with
  | nonResp => rfl
  | resp r =>
    unfold stepContent
    dsimp only
    split <;> rfl

theorem stepContent_run_input (w : Workflow) (f : Fragment) :
    (stepContent w f).run_input = w.run_input := by
  cases f with
  | nonResp => rfl
  | resp r =>
    unfold stepContent
    dsimp only
    split <;> rfl

theorem stepContent_storageConfigured (w : Workflow) (f : Fragment) :
    (stepContent w f).storageConfigured = w.storageConfigured := by
  cases f with
  | nonResp => rfl
  | resp r =>
    unfold stepContent
    dsimp only
    split <;> rfl

theorem stampFrag_stepContent (w : Workflow) (f : Fragment) :
    stampFrag (stepContent w f) = stampFrag w := by
  funext g
  cases g with
  | nonResp => rfl
  | resp r =>
    simp [stampFrag, stampResponse, stepContent_run_id, stepContent_session_id,
          stepContent_workflow_id]

theorem accumulate_run_id (w : Workflow) (fs : List Fragment) :
    (accumulate w fs).run_id = w.run_id := by
  induction fs generalizing w with
  | nil => rfl
  | cons f rest ih =>
    simp only [accumulate]
    rw [ih, stepContent_run_id]

theorem accumulate_session_id (w : Workflow) (fs : List Fragment) :
    (accumulate w fs).session_id = w.session_id := by
  induction fs generalizing w with
  | nil => rfl
  | cons f rest ih =>
    simp only [accumulate]
    rw [ih, stepContent_session_id]

theorem accumulate_workflow_id (w : Workflow) (fs : List Fragment) :
    (accumulate w fs).workflow_id = w.workflow_id := by
  induction fs generalizing w with
  | nil => rfl
  | cons f rest ih =>
    simp only [accumulate]
    rw [ih, stepContent_workflow_id]

theorem accumulate_memory (w : Workflow) (fs : List Fragment) :
    (accumulate w fs).memory = w.memory := by
  induction fs generalizing w with
  | nil => rfl
  | cons f rest ih =>
    simp only [accumulate]
    rw [ih, stepContent_memory]

theorem accumulate_run_input (w : Workflow) (fs : List Fragment) :
    (accumulate w fs).run_input = w.run_input := by
  induction fs generalizing w with
  | nil => rfl
  | cons f rest ih =>
    simp only [accumulate]
    rw [ih, stepContent_run_input]

theorem accumulate_storageConfigured (w : Workflow) (fs : List Fragment) :
    (accumulate w fs).storageConfigured = w.storageConfigured := by
  induction fs generalizing w with
  | nil => rfl
  | cons f rest ih =>
    simp only [accumulate]
    rw [ih, stepContent_storageConfigured]

theorem accumulate_content (fs : List Fragment) : ∀ (w : Workflow) (acc : String),
    w.run_response.content = some (Val.vstr acc) →
    (accumulate w fs).run_response.content = some (Val.vstr (acc ++ concatContents fs)) := by
  induction fs with
  | nil =>
    intro w acc h
    simpa [accumulate, concatContents, String.append_empty] using h
  | cons f rest ih =>
    intro w acc h
    simp only [accumulate, concatContents]
    cases f with
    | nonResp =>
      simp only [fragmentText]
      rw [String.empty_append]
      exact ih w acc h
    | resp r =>
      cases hrc : r.content with
      | none =>
        simp only [stepContent, stampResponse_content, hrc, fragmentText]
        rw [String.empty_append]
        exact ih w acc h
      | some v =>
        cases v with
        | vstr s =>
          simp only [stepContent, stampResponse_content, hrc, fragmentText]
          rw [← String.append_assoc]
          refine ih _ (acc ++ s) ?_
          simp [h, appendStr]
        | vnat n =>
          simp only [stepContent, stampResponse_content, hrc, fragmentText]
          rw [String.empty_append]
          exact ih w acc h
        | vdict d =>
          simp only [stepContent, stampResponse_content, hrc, fragmentText]
          rw [String.empty_append]
          exact ih w acc h

theorem genStep_cons (w : Workflow) (st : Store) (f : Fragment) (rest : List Fragment) :
    genStep ⟨w, st, f :: rest, false⟩
      = (some (stampFrag w f), ⟨stepContent w f, st, rest, false⟩) := rfl

theorem genStep_finalize (w : Workflow) (st : Store) :
    genStep ⟨w, st, [], false⟩
      = (none, ⟨(finalize_run w st).1, (finalize_run w st).2, [], true⟩) := rfl

theorem genStep_done (w : Workflow) (st : Store) :
    genStep ⟨w, st, [], true⟩ = (none, ⟨w, st, [], true⟩) := rfl

theorem pullN_le (n : Nat) : ∀ (fs : List Fragment) (w : Workflow) (st : Store),
    n ≤ fs.length →
    pullN n ⟨w, st, fs, false⟩
      = ((fs.take n).map (stampFrag w), ⟨accumulate w (fs.take n), st, fs.drop n, false⟩) := by
  induction n with
  | zero =>
    intro fs w st h
    simp [pullN, accumulate]
  | succ n ih =>
    intro fs w st h
    cases fs with
    | nil => simp at h
    | cons f rest =>
      simp only [pullN, genStep_cons]
      rw [ih rest (stepContent w f) st (by simpa using h)]
      simp [accumulate, stampFrag_stepContent]

theorem pullN_gt (fs : List Fragment) : ∀ (m : Nat) (w : Workflow) (st : Store),
    fs.length < m →
    pullN m ⟨w, st, fs, false⟩
      = (fs.map (stampFrag w),
         ⟨(finalize_run (accumulate w fs) st).1, (finalize_run (accumulate w fs) st).2,
          [], true⟩) := by
  induction fs with
  | nil =>
    intro m w st h
    cases m with
    | zero => simp at h
    | succ m =>
      simp only [pullN, genStep_finalize]
      simp [accumulate]
  | cons f rest ih =>
    intro m w st h
    cases m with
    | zero => simp at h
    | succ m =>
      simp only [pullN, genStep_cons]
      rw [ih m (stepContent w f) st (by simpa using h)]
      simp [accumulate, stampFrag_stepContent]

/-! Lemmas about `write_to_storage` and `finalize_run`. -/

theorem wts_memory (w : Workflow) (st : Store) :
    (write_to_storage w st).1.memory = w.memory := by
  unfold write_to_storage
  split <;> rfl

theorem wts_run_response (w : Workflow) (st : Store) :
    (write_to_storage w st).1.run_response = w.run_response := by
  unfold write_to_storage
  split <;> rfl

theorem wts_run_input (w : Workflow) (st : Store) :
    (write_to_storage w st).1.run_input = w.run_input := by
  unfold write_to_storage
  split <;> rfl

theorem wts_count_configured (w : Workflow) (st : Store) (h : w.storageConfigured = true) :
    (write_to_storage w st).2.upsertCount = st.upsertCount + 1 := by
  unfold write_to_storage
  rw [h]
  simp [Store.upsert]

theorem wts_not_configured (w : Workflow) (st : Store) (h : w.storageConfigured = false) :
    write_to_storage w st = (w, st) := by
  unfold write_to_storage
  rw [h]
  simp

theorem finalize_run_memory (w : Workflow) (st : Store) :
    (finalize_run w st).1.memory.runs
      = w.memory.runs ++ [⟨w.run_input, some w.run_response⟩] := by
  unfold finalize_run
  rw [wts_memory]
  rfl

theorem finalize_run_run_response (w : Workflow) (st : Store) :
    (finalize_run w st).1.run_response = w.run_response := by
  unfold finalize_run
  rw [wts_run_response]

theorem finalize_run_count (w : Workflow) (st : Store) (h : w.storageConfigured = true) :
    (finalize_run w st).2.upsertCount = st.upsertCount + 1 := by
  unfold finalize_run
  exact wts_count_configured _ st h

/-! Helpers for the run-wrapper theorems. -/

theorem run_workflow_iter (w : Workflow) (rid : String) (inp : RunInput) (st : Store)
    (frags : List Fragment) :
    run_workflow w rid inp st (fun _ _ => RunResult.iter frags)
      = RunOutcome.stream
          { w := { (run_workflow_pre w rid inp st).1 with
              run_response := { (run_workflow_pre w rid inp st).1.run_response with
                content := some (Val.vstr "") } },
            st := (run_workflow_pre w rid inp st).2,
            pending := frags, finished := false } := rfl

theorem run_workflow_single_resp (w : Workflow) (rid : String) (inp : RunInput) (st : Store)
    (r r' : RunResponse) (wf : Workflow) (stf : Store)
    (h : run_workflow w rid inp st (fun _ _ => RunResult.single r)
          = RunOutcome.response r' wf stf) :
    r' = stampResponse (run_workflow_pre w rid inp st).1 r := by
  unfold run_workflow at h
  dsimp only at h
  exact ((RunOutcome.response.inj h).1).symm

theorem rfs_unconfigured (w : Workflow) (st : Store) (h : w.storageConfigured = false) :
    read_from_storage w st = (w, st) := by
  unfold read_from_storage
  cases w.session_id
  · rfl
  · dsimp only
    rw [h]
    simp

theorem rfs_found_isSome (w : Workflow) (st : Store) (sid : String) (s : WorkflowSession)
    (hc : w.storageConfigured = true) (hsid : w.session_id = some sid)
    (hr : st.read sid = some s) :
    (read_from_storage w st).1.workflow_session.isSome = true := by
  rw [rfs_found w st sid s hc hsid hr]
  rfl

theorem pre_found_isSome (w : Workflow) (rid : String) (inp : RunInput) (st : Store)
    (sid : String) (s : WorkflowSession) (hc : w.storageConfigured = true)
    (hsid : w.session_id = some sid) (hr : st.read sid = some s) :
    (run_workflow_pre w rid inp st).1.workflow_session.isSome = true := by
  unfold run_workflow_pre
  exact rfs_found_isSome _ st sid s hc hsid hr

theorem findSession_id (ts : List WorkflowSession) (sid : String) (ws : WorkflowSession)
    (h : findSession ts sid = some ws) : ws.session_id = some sid := by
  induction ts with
  | nil => simp [findSession] at h
  | cons t rest ih =>
    by_cases ht : t.session_id = some sid
    · simp [findSession, ht] at h
      rw [← h]
      exact ht
    · simp [findSession, ht] at h
      exact ih h

theorem findSession_upsertList (ts : List WorkflowSession) (sid : String)
    (ws ws' : WorkflowSession)
    (hfind : findSession ts sid = some ws) (hid : ws'.session_id = ws.session_id) :
    findSession (upsertList ts ws') sid = some ws' := by
  induction ts with
  | nil => simp [findSession] at hfind
  | cons t rest ih =>
    by_cases ht : t.session_id = some sid
    · simp [findSession, ht] at hfind
      have hsid' : ws'.session_id = some sid := by
        rw [hid, ← hfind]
        exact ht
      have ht' : t.session_id = ws'.session_id := by
        rw [hsid', ht]
      simp [upsertList, ht', findSession, hsid']
    · simp [findSession, ht] at hfind
      have hws : ws.session_id = some sid := findSession_id rest sid ws hfind
      have hid' : ¬ (t.session_id = ws'.session_id) := by
        rw [hid, hws]
        exact ht
      simp [upsertList, hid', findSession, ht]
      exact ih hfind

/-! The claims. -/

/-- Claim C4: the per-map merge of persisted into local state satisfies:
for a key in both maps with non-map values the local value wins; a key
only in the persisted map survives; a key only in the local map is
inserted; for keys whose values are both maps the merge recurses (so to
arbitrary nesting depth); and in `from_workflow_session` the merged map
becomes both the workflow's and the session record's map (the in-place
mutation of the persisted dict). -/
theorem C4_merge_precedence (p l : Dict) (k : String) :
    (∀ pv lv, lookupD p k = some pv → lookupD l k = some lv →
      pv.isDict = false → lv.isDict = false →
      lookupD (mergeDicts p l) k = some lv) ∧
    (∀ pv, lookupD p k = some pv → lookupD l k = none →
      lookupD (mergeDicts p l) k = some pv) ∧
    (lookupD p k = none → lookupD (mergeDicts p l) k = lookupD l k) ∧
    (∀ pm lm, lookupD p k = some (Val.vdict pm) → lookupD l k = some (Val.vdict lm) →
      lookupD (mergeDicts p l) k = some (Val.vdict (mergeDicts pm lm))) ∧
    (∀ (w : Workflow) (s : WorkflowSession),
      s.workflow_data = some p → w.workflow_data = some l →
      (from_workflow_session w s).1.workflow_data = some (mergeDicts p l) ∧
      (from_workflow_session w s).2.workflow_data = some (mergeDicts p l)) := by
  refine ⟨?_, ?_, ?_, ?_, ?_⟩
  · intro pv lv hp hl hpd hld
    refine lookupD_mergeDicts_scalar p l k pv lv hp hl ?_
    rw [hpd, hld]
    rfl
  · intro pv hp hl
    exact lookupD_mergeDicts_ponly p l k pv hp hl
  · intro hp
    exact lookupD_mergeDicts_lonly p l k hp
  · intro pm lm hp hl
    exact lookupD_mergeDicts_dicts p l k pm lm hp hl
  · intro w s hs hw
    exact from_ws_workflow_data_merge w s p l hs hw

/-- Witness for C4: the merge example evaluated on concrete dicts,
including a shared scalar key, keys private to each side, and a
three-level nested recursion whose innermost conflict resolves to the
local value. -/
theorem C4_merge_precedence_witness :
    lookupD (mergeDicts mergeP mergeL) "shared" = some (Val.vstr "local") ∧
    lookupD (mergeDicts mergeP mergeL) "ponly" = some (Val.vnat 1) ∧
    lookupD (mergeDicts mergeP mergeL) "lonly" = some (Val.vnat 2) ∧
    lookupD (mergeDicts mergeP mergeL) "nest" = some (Val.vdict (mergeDicts mergeP1 mergeL1)) ∧
    lookupD (mergeDicts mergeP1 mergeL1) "nest2" = some (Val.vdict (mergeDicts mergeP2 mergeL2)) ∧
    lookupD (mergeDicts mergeP2 mergeL2) "deep" = some (Val.vstr "ldeep") ∧
    lookupD (mergeDicts mergeP2 mergeL2) "pkeep" = some (Val.vnat 3) ∧
    lookupD (mergeDicts mergeP2 mergeL2) "ladd" = some (Val.vnat 4) := by
  refine ⟨?_, ?_, ?_, ?_, ?_, ?_, ?_, ?_⟩
  · exact (C4_merge_precedence mergeP mergeL "shared").1 (Val.vstr "persisted") (Val.vstr "local")
      rfl rfl rfl rfl
  · exact (C4_merge_precedence mergeP mergeL "ponly").2.1 (Val.vnat 1) rfl rfl
  · exact (C4_merge_precedence mergeP mergeL "lonly").2.2.1 rfl
  · exact (C4_merge_precedence mergeP mergeL "nest").2.2.2.1 mergeP1 mergeL1 rfl rfl
  · exact (C4_merge_precedence mergeP1 mergeL1 "nest2").2.2.2.1 mergeP2 mergeL2 rfl rfl
  · exact (C4_merge_precedence mergeP2 mergeL2 "deep").1 (Val.vstr "pdeep") (Val.vstr "ldeep")
      rfl rfl rfl rfl
  · exact (C4_merge_precedence mergeP2 mergeL2 "pkeep").2.1 (Val.vnat 3) rfl rfl
  · exact (C4_merge_precedence mergeP2 mergeL2 "ladd").2.2.1 rfl

/-- Claim C5: a persisted session with a non-empty, decodable run history
loaded into a fresh workflow (empty history) replaces the in-memory run
history wholesale, element for element, in the original order. -/
theorem C5_history_replacement (w : Workflow) (s : WorkflowSession) (mem : MemorySer)
    (entries : List MemEntry) (rs : List WorkflowRun)
    (hfresh : w.memory.runs = []) (hne : entries ≠ [])
    (hs : s.memory = some mem) (hr : mem.runs = some entries)
    (hd : decodeRuns entries = some rs) :
    (from_workflow_session w s).1.memory.runs = rs := by
  rw [from_ws_memory_decoded w s mem entries rs hs hr hd]

/-- Witness for C5: loading a two-record history into a fresh workflow
yields exactly those records in order. -/
theorem C5_history_replacement_witness :
    (from_workflow_session wfFresh sessWithHistory).1.memory.runs = [runA, runB] := by
  exact C5_history_replacement wfFresh sessWithHistory
    { runs := some [MemEntry.good runA, MemEntry.good runB] }
    [MemEntry.good runA, MemEntry.good runB] [runA, runB]
    rfl (by simp) rfl rfl rfl

/-- Counterexample for C6: a history with a malformed entry between two
well-formed ones loads *no* entries at all — the two individually
decodable records are not loaded, contradicting the claim that the
malformed entry is skipped while the remaining entries are still
loaded. -/
theorem C6_counterexample :
    decodeEntry (MemEntry.good runA) = some runA ∧
    decodeEntry (MemEntry.good runB) = some runB ∧
    sessBadHistory.memory
      = some { runs := some [MemEntry.good runA, MemEntry.bad, MemEntry.good runB] } ∧
    (from_workflow_session wfFresh sessBadHistory).1.memory.runs = [] := by
  refine ⟨rfl, rfl, rfl, ?_⟩
  rfl

/-- Claim C6 amended: a failure to reconstruct any individual run record
is non-fatal (the exception is caught and logged) but aborts the whole
history load: the in-memory history is left as previously set, and no
entry — well-formed or not — is loaded. -/
theorem C6_failed_decode_keeps_history (w : Workflow) (s : WorkflowSession)
    (mem : MemorySer) (entries : List MemEntry)
    (hs : s.memory = some mem) (hr : mem.runs = some entries)
    (hd : decodeRuns entries = none) :
    (from_workflow_session w s).1.memory.runs = w.memory.runs := by
  rw [from_ws_memory_failed w s mem entries hs hr hd]

/-- Witness for the amended C6: the bad-history session leaves the fresh
workflow's history as it was. -/
theorem C6_failed_decode_witness :
    (from_workflow_session wfFresh sessBadHistory).1.memory.runs = wfFresh.memory.runs :=
  C6_failed_decode_keeps_history wfFresh sessBadHistory
    { runs := some [MemEntry.good runA, MemEntry.bad, MemEntry.good runB] }
    [MemEntry.good runA, MemEntry.bad, MemEntry.good runB] rfl rfl rfl

/-- Claim C9: when loading a persisted session, an unset `name`
(resp. `session_name`) adopts the persisted `workflow_data["name"]`
(resp. `session_data["session_name"]`), and the adopted value is the
*pre-merge* persisted one — the adoption happens before the generic
merge; a locally-set `name`/`session_name` is never clobbered. -/
theorem C9_name_adoption (w : Workflow) (s : WorkflowSession) :
    (∀ wd, s.workflow_data = some wd → w.name = none → hasKey wd "name" = true →
      (from_workflow_session w s).1.name = lookupD wd "name") ∧
    (∀ sd, s.session_data = some sd → w.session_name = none →
      hasKey sd "session_name" = true →
      (from_workflow_session w s).1.session_name = lookupD sd "session_name") ∧
    (∀ v, w.name = some v → (from_workflow_session w s).1.name = some v) ∧
    (∀ v, w.session_name = some v → (from_workflow_session w s).1.session_name = some v) := by
  refine ⟨?_, ?_, ?_, ?_⟩
  · intro wd hs hn hk
    exact from_ws_fst_name_adopt w s wd hs hn hk
  · intro sd hs hn hk
    exact from_ws_fst_session_name_adopt w s sd hs hn hk
  · intro v hv
    exact from_ws_fst_name_some w s v hv
  · intro v hv
    exact from_ws_fst_session_name_some w s v hv

/-- Witness for C9: an unnamed workflow adopts the persisted name even
though its own `workflow_data` carries a conflicting `"name"` key (which
wins the generic merge, showing the adoption read the pre-merge value),
and a named workflow keeps its local names. -/
theorem C9_name_adoption_witness :
    (from_workflow_session wfUnnamed sessNamed).1.name = some (Val.vstr "persisted-name") ∧
    (from_workflow_session wfUnnamed sessNamed).1.session_name
      = some (Val.vstr "persisted-session") ∧
    (from_workflow_session wfNamed sessNamed).1.name = some (Val.vstr "my-name") ∧
    (from_workflow_session wfNamed sessNamed).1.session_name
      = some (Val.vstr "my-session") := by
  refine ⟨?_, ?_, ?_, ?_⟩
  · exact ((C9_name_adoption wfUnnamed sessNamed).1
      [("name", Val.vstr "persisted-name")] rfl rfl rfl).trans rfl
  · exact ((C9_name_adoption wfUnnamed sessNamed).2.1
      [("session_name", Val.vstr "persisted-session")] rfl rfl rfl).trans rfl
  · exact (C9_name_adoption wfNamed sessNamed).2.2.1 (Val.vstr "my-name") rfl
  · exact (C9_name_adoption wfNamed sessNamed).2.2.2 (Val.vstr "my-session") rfl

/-- Claim C8: with a configured store, `rename_session` raises NotFound
and performs no upsert when the store has no record for the session id;
when a record (with a session_data map) exists, it sets
`session_data["session_name"]` to the new name and upserts exactly once,
and the stored record afterwards carries the new name. -/
theorem C8_rename_session (w : Workflow) (st : Store) (sid nm : String)
    (hc : w.storageConfigured = true) :
    (st.read sid = none →
      rename_session w st sid nm = (Except.error (RenameErr.notFound sid), st)) ∧
    (∀ ws sd, st.read sid = some ws → ws.session_data = some sd →
      rename_session w st sid nm
        = (Except.ok (),
           (st.upsert { ws with session_data := some (setKey sd "session_name" (Val.vstr nm)) }).2) ∧
      ((rename_session w st sid nm).2).upsertCount = st.upsertCount + 1 ∧
      ((rename_session w st sid nm).2).read sid
        = some { ws with session_data := some (setKey sd "session_name" (Val.vstr nm)) }) := by
  constructor
  · intro hr
    simp [rename_session, hc, hr]
  · intro ws sd hr hsd
    have he : rename_session w st sid nm
        = (Except.ok (),
           (st.upsert { ws with session_data := some (setKey sd "session_name" (Val.vstr nm)) }).2) := by
      simp [rename_session, hc, hr, hsd]
    refine ⟨he, ?_, ?_⟩
    · rw [he]
      simp [Store.upsert]
    · rw [he]
      show (st.upsert _).2.read sid = _
      simp only [Store.upsert, Store.read]
      exact findSession_upsertList st.sessions sid ws _ hr rfl

/-- Witness for C8: renaming an unknown id fails with NotFound and leaves
the store untouched; renaming the stored session upserts once and the
stored record carries the new session name. -/
theorem C8_rename_session_witness :
    rename_session wfBase emptyStore "nope" "x"
      = (Except.error (RenameErr.notFound "nope"), emptyStore) ∧
    ((rename_session wfBase storeOne "sess-1" "x").2).upsertCount
      = storeOne.upsertCount + 1 ∧
    ((rename_session wfBase storeOne "sess-1" "x").2).read "sess-1"
      = some { sessStored with
          session_data := some (setKey [("k", Val.vnat 0)] "session_name" (Val.vstr "x")) } := by
  refine ⟨(C8_rename_session wfBase emptyStore "nope" "x" rfl).1 rfl, ?_, ?_⟩
  · exact ((C8_rename_session wfBase storeOne "sess-1" "x" rfl).2 sessStored
      [("k", Val.vnat 0)] rfl rfl).2.1
  · exact ((C8_rename_session wfBase storeOne "sess-1" "x" rfl).2 sessStored
      [("k", Val.vnat 0)] rfl rfl).2.2

/-- Claim C10: `rename_session` is total only when a storage backend is
configured and the stored record's `session_data` is a map.  Outside
those unstated preconditions it fails before the upsert with an error
other than the specified NotFound (the `AttributeError` of a null
storage, resp. the `TypeError` of subscripting a null `session_data`),
and the store is not written; `read_from_storage` and `write_to_storage`
by contrast guard the null storage and no-op. -/
theorem C10_rename_preconditions (w : Workflow) (st : Store) (sid nm : String) :
    (w.storageConfigured = false →
      rename_session w st sid nm = (Except.error RenameErr.storageNotConfigured, st) ∧
      RenameErr.storageNotConfigured ≠ RenameErr.notFound sid ∧
      read_from_storage w st = (w, st) ∧
      write_to_storage w st = (w, st)) ∧
    (∀ ws, w.storageConfigured = true → st.read sid = some ws → ws.session_data = none →
      rename_session w st sid nm = (Except.error RenameErr.sessionDataNone, st) ∧
      RenameErr.sessionDataNone ≠ RenameErr.notFound sid) := by
  constructor
  · intro hc
    refine ⟨?_, by simp, rfs_unconfigured w st hc, wts_not_configured w st hc⟩
    simp [rename_session, hc]
  · intro ws hc hr hsd
    refine ⟨?_, by simp⟩
    simp [rename_session, hc, hr, hsd]

/-- Witness for C10: with no storage backend the failure is the
storage-dereference error, and with a stored record whose session_data is
null the failure is the subscript error; neither is NotFound and neither
writes the store. -/
theorem C10_rename_preconditions_witness :
    rename_session wfFresh emptyStore "sess-1" "x"
      = (Except.error RenameErr.storageNotConfigured, emptyStore) ∧
    rename_session wfBase storeNoData "sess-2" "x"
      = (Except.error RenameErr.sessionDataNone, storeNoData) ∧
    RenameErr.storageNotConfigured ≠ RenameErr.notFound "sess-1" ∧
    RenameErr.sessionDataNone ≠ RenameErr.notFound "sess-2" := by
  refine ⟨((C10_rename_preconditions wfFresh emptyStore "sess-1" "x").1 rfl).1,
          ((C10_rename_preconditions wfBase storeNoData "sess-2" "x").2 sessNoData rfl rfl rfl).1,
          ((C10_rename_preconditions wfFresh emptyStore "sess-1" "x").1 rfl).2.1,
          ((C10_rename_preconditions wfBase storeNoData "sess-2" "x").2 sessNoData rfl rfl rfl).2⟩

/-- Counterexample for C3: against a configured but empty store,
`run_workflow`'s pre-invocation phase leaves the store empty and caches
no session — no session record exists before the user function executes,
contradicting the claim that the full ensure-session (read or
create-and-persist) protocol runs first. -/
theorem C3_counterexample :
    wfBase.storageConfigured = true ∧
    wfBase.session_id = some "sess-1" ∧
    ((run_workflow_pre wfBase "run-1" sampleInput emptyStore).2).sessions = [] ∧
    ((run_workflow_pre wfBase "run-1" sampleInput emptyStore).2).read "sess-1" = none ∧
    (run_workflow_pre wfBase "run-1" sampleInput emptyStore).1.workflow_session = none := by
  refine ⟨rfl, rfl, ?_, ?_, ?_⟩
  · rw [pre_store]
    rfl
  · rw [pre_store]
    rfl
  · exact pre_not_found wfBase "run-1" sampleInput emptyStore "sess-1" rfl rfl rfl

/-- Claim C3 amended: before invoking the user function, `run_workflow`
performs only the *read* half of the protocol (`read_from_storage`): a
persisted session, when present, is read and merged into the workflow,
but when none is present nothing is created or persisted — the store is
unchanged in either case.  (The full read-or-create protocol is
`load_session`, which `run_workflow` does not call.) -/
theorem C3_pre_reads_only (w : Workflow) (rid : String) (inp : RunInput) (st : Store)
    (sid : String) :
    (run_workflow_pre w rid inp st).2 = st ∧
    (w.storageConfigured = true → w.session_id = some sid → st.read sid = none →
      (run_workflow_pre w rid inp st).1.workflow_session = none) ∧
    (∀ s, w.storageConfigured = true → w.session_id = some sid → st.read sid = some s →
      (run_workflow_pre w rid inp st).1.workflow_session.isSome = true) := by
  refine ⟨pre_store w rid inp st, ?_, ?_⟩
  · intro hc hs hr
    exact pre_not_found w rid inp st sid hc hs hr
  · intro s hc hs hr
    exact pre_found_isSome w rid inp st sid s hc hs hr

/-- Witness for the amended C3: with an empty store the pre-phase changes
nothing and caches no session; with the session already stored, it is
read and cached. -/
theorem C3_pre_reads_only_witness :
    (run_workflow_pre wfBase "run-1" sampleInput emptyStore).2 = emptyStore ∧
    (run_workflow_pre wfBase "run-1" sampleInput emptyStore).1.workflow_session = none ∧
    (run_workflow_pre wfBase "run-1" sampleInput storeOne).2 = storeOne ∧
    (run_workflow_pre wfBase "run-1" sampleInput storeOne).1.workflow_session.isSome = true := by
  refine ⟨(C3_pre_reads_only wfBase "run-1" sampleInput emptyStore "sess-1").1,
          (C3_pre_reads_only wfBase "run-1" sampleInput emptyStore "sess-1").2.1 rfl rfl rfl,
          (C3_pre_reads_only wfBase "run-1" sampleInput storeOne "sess-1").1,
          (C3_pre_reads_only wfBase "run-1" sampleInput storeOne "sess-1").2.2 sessStored rfl rfl rfl⟩

theorem mem_map_stampFrag (w : Workflow) (fs' : List Fragment) (r : RunResponse)
    (hmem : Fragment.resp r ∈ fs'.map (stampFrag w)) :
    r.run_id = w.run_id ∧ r.session_id = w.session_id ∧ r.workflow_id = w.workflow_id := by
  simp only [List.mem_map] at hmem
  obtain ⟨f0, hf0, hstamp⟩ := hmem
  cases f0 with
  | nonResp => simp [stampFrag] at hstamp
  | resp r0 =>
    simp only [stampFrag] at hstamp
    injection hstamp with h2
    rw [← h2]
    exact ⟨rfl, rfl, rfl⟩

/-- Claim C1: for a streaming run drained to exhaustion, every fragment
is forwarded (stamped when it is an envelope), the outer envelope's
content equals the concatenation, in emission order, of the string-valued
content of the fragments (non-string or missing content contributes
nothing), and exactly one run record `{run_input, outer envelope}` is
appended to the run history. -/
theorem C1_streaming_aggregation (w0 : Workflow) (rid : String) (inp : RunInput)
    (st : Store) (frags : List Fragment) (g0 : GenState) (m : Nat)
    (hrun : run_workflow w0 rid inp st (fun _ _ => RunResult.iter frags)
              = RunOutcome.stream g0)
    (hm : frags.length < m) :
    (pullN m g0).1 = frags.map (stampFrag g0.w) ∧
    ((pullN m g0).2).w.run_response.content = some (Val.vstr (concatContents frags)) ∧
    ((pullN m g0).2).w.memory.runs
      = g0.w.memory.runs
        ++ [⟨g0.w.run_input, some (((pullN m g0).2).w.run_response)⟩] := by
  rw [run_workflow_iter] at hrun
  have hg := RunOutcome.stream.inj hrun
  subst hg
  rw [pullN_gt frags m _ _ hm]
  dsimp only
  refine ⟨rfl, ?_, ?_⟩
  · rw [finalize_run_run_response]
    refine (accumulate_content frags _ "" ?_).trans ?_
    · rfl
    · rw [String.empty_append]
  · rw [finalize_run_memory, finalize_run_run_response, accumulate_memory,
        accumulate_run_input]

/-- Witness for C1: the spec's "Hello"/" "/"World" example drained with
four pulls aggregates to "Hello World" and appends exactly the one run
record. -/
theorem C1_streaming_aggregation_witness :
    (pullN 4 helloGen).1 = helloFrags.map (stampFrag helloGen.w) ∧
    ((pullN 4 helloGen).2).w.run_response.content = some (Val.vstr "Hello World") ∧
    ((pullN 4 helloGen).2).w.memory.runs
      = helloGen.w.memory.runs
        ++ [⟨helloGen.w.run_input, some (((pullN 4 helloGen).2).w.run_response)⟩] := by
  have h := C1_streaming_aggregation wfBase "run-1" sampleInput emptyStore helloFrags
    helloGen 4 rfl (by decide)
  refine ⟨h.1, ?_, h.2.2⟩
  rw [h.2.1]
  rfl

/-- Claim C2: in the streaming case the finalization (history append,
then store write) happens exactly once, only after the fragment sequence
is exhausted; a consumer that stops pulling early (at most one pull per
fragment) leaves the history and the store untouched. -/
theorem C2_finalization_timing (w0 : Workflow) (rid : String) (inp : RunInput)
    (st : Store) (frags : List Fragment) (g0 : GenState)
    (hrun : run_workflow w0 rid inp st (fun _ _ => RunResult.iter frags)
              = RunOutcome.stream g0) :
    (∀ n, n ≤ frags.length →
      ((pullN n g0).2).w.memory.runs = g0.w.memory.runs ∧
      ((pullN n g0).2).st = g0.st ∧
      ((pullN n g0).2).finished = false) ∧
    (∀ m, frags.length < m →
      pullN m g0 = pullN (frags.length + 1) g0 ∧
      ((pullN m g0).2).w.memory.runs.length = g0.w.memory.runs.length + 1 ∧
      ((pullN m g0).2).finished = true) ∧
    (w0.storageConfigured = true → ∀ m, frags.length < m →
      ((pullN m g0).2).st.upsertCount = g0.st.upsertCount + 1) := by
  rw [run_workflow_iter] at hrun
  have hg := RunOutcome.stream.inj hrun
  subst hg
  refine ⟨?_, ?_, ?_⟩
  · intro n hn
    rw [pullN_le n frags _ _ hn]
    dsimp only
    refine ⟨?_, rfl, rfl⟩
    rw [accumulate_memory]
  · intro m hm
    rw [pullN_gt frags m _ _ hm, pullN_gt frags (frags.length + 1) _ _ (Nat.lt_succ_self _)]
    dsimp only
    refine ⟨rfl, ?_, rfl⟩
    rw [finalize_run_memory, accumulate_memory]
    simp
  · intro hc m hm
    rw [pullN_gt frags m _ _ hm]
    dsimp only
    refine finalize_run_count _ _ ?_
    rw [accumulate_storageConfigured]
    dsimp only
    rw [pre_storageConfigured]
    exact hc

/-- Witness for C2: pulling 1 of 3 fragments appends nothing and leaves
the store untouched; draining fully finalizes exactly once (pull counts
beyond exhaustion change nothing) and performs exactly one upsert. -/
theorem C2_finalization_timing_witness :
    ((pullN 1 helloGen).2).w.memory.runs = helloGen.w.memory.runs ∧
    ((pullN 1 helloGen).2).st = helloGen.st ∧
    ((pullN 1 helloGen).2).finished = false ∧
    pullN 5 helloGen = pullN 4 helloGen ∧
    ((pullN 4 helloGen).2).st.upsertCount = helloGen.st.upsertCount + 1 := by
  have h := C2_finalization_timing wfBase "run-1" sampleInput emptyStore helloFrags
    helloGen rfl
  have hp := h.1 1 (by decide)
  have hf := h.2.1 5 (by decide)
  have h4 : helloFrags.length + 1 = 4 := rfl
  refine ⟨hp.1, hp.2.1, hp.2.2, ?_, h.2.2 rfl 4 (by decide)⟩
  rw [hf.1, h4]

/-- Claim C7: every `RunResponse` envelope that reaches the caller of
`run_workflow` — the single returned result or any streamed fragment —
carries the run's allocated `run_id`, `session_id` and `workflow_id`,
overwriting whatever the user function had set. -/
theorem C7_envelope_stamping (w0 : Workflow) (rid : String) (inp : RunInput)
    (st : Store) (sid wid : String)
    (hs : w0.session_id = some sid) (hw : w0.workflow_id = some wid) :
    (∀ r r' wf stf,
      run_workflow w0 rid inp st (fun _ _ => RunResult.single r)
        = RunOutcome.response r' wf stf →
      r'.run_id = some rid ∧ r'.session_id = some sid ∧ r'.workflow_id = some wid) ∧
    (∀ frags g0 m r,
      run_workflow w0 rid inp st (fun _ _ => RunResult.iter frags)
        = RunOutcome.stream g0 →
      Fragment.resp r ∈ (pullN m g0).1 →
      r.run_id = some rid ∧ r.session_id = some sid ∧ r.workflow_id = some wid) := by
  constructor
  · intro r r' wf stf h
    have hr' := run_workflow_single_resp w0 rid inp st r r' wf stf h
    subst hr'
    refine ⟨?_, ?_, ?_⟩
    · exact pre_run_id w0 rid inp st
    · exact pre_session_id w0 rid inp st sid hs
    · exact pre_workflow_id w0 rid inp st sid wid hs hw
  · intro frags g0 m r hrun hmem
    rw [run_workflow_iter] at hrun
    have hg := RunOutcome.stream.inj hrun
    subst hg
    rcases le_or_lt m frags.length with hle | hgt
    · rw [pullN_le m frags _ _ hle] at hmem
      dsimp only at hmem
      have h3 := mem_map_stampFrag _ _ r hmem
      refine ⟨?_, ?_, ?_⟩
      · rw [h3.1]
        exact pre_run_id w0 rid inp st
      · rw [h3.2.1]
        exact pre_session_id w0 rid inp st sid hs
      · rw [h3.2.2]
        exact pre_workflow_id w0 rid inp st sid wid hs hw
    · rw [pullN_gt frags m _ _ hgt] at hmem
      dsimp only at hmem
      have h3 := mem_map_stampFrag _ _ r hmem
      refine ⟨?_, ?_, ?_⟩
      · rw [h3.1]
        exact pre_run_id w0 rid inp st
      · rw [h3.2.1]
        exact pre_session_id w0 rid inp st sid hs
      · rw [h3.2.2]
        exact pre_workflow_id w0 rid inp st sid wid hs hw

/-- Witness for C7: the first streamed fragment of the example reaches
the consumer stamped with the allocated run, session and workflow ids. -/
theorem C7_envelope_stamping_witness :
    stampedHello.run_id = some "run-1" ∧ stampedHello.session_id = some "sess-1" ∧
    stampedHello.workflow_id = some "wf-1" := by
  exact (C7_envelope_stamping wfBase "run-1" sampleInput emptyStore "sess-1" "wf-1"
    rfl rfl).2 helloFrags helloGen 4 stampedHello rfl (List.Mem.head _)
